import Mathlib

/-!
Verification of the typed runtime-setting value cells of
`dbms/src/Core/SettingsCommon.cpp`: scalar numeric settings, the
auto-sizing max-threads setting, timespan settings, string and char
settings, and the closed-enum settings with their name tables.

The C++ classes are embedded shallowly: each setting is a Lean structure
holding the fields the C++ object stores, each method becomes a Lean
function on that structure, fallible methods (which `throw` in C++)
return `Except DBException`.  Machine integers are modelled as `Nat`/`Int`
with explicit `% 2 ^ 64` where C++ unsigned overflow matters.
-/

set_option autoImplicit false

/-- Error codes referenced by `SettingsCommon.cpp` (`namespace ErrorCodes`).
The numeric values live outside this translation unit; an inductive of the
names is enough to distinguish the error kinds. -/
inductive ErrorCode where
  | TYPE_MISMATCH
  | UNKNOWN_LOAD_BALANCING
  | UNKNOWN_OVERFLOW_MODE
  | ILLEGAL_OVERFLOW_MODE
  | UNKNOWN_TOTALS_MODE
  | UNKNOWN_COMPRESSION_METHOD
  | UNKNOWN_DISTRIBUTED_PRODUCT_MODE
  | UNKNOWN_GLOBAL_SUBQUERIES_METHOD
  | UNKNOWN_JOIN_STRICTNESS
  | UNKNOWN_LOG_LEVEL
  | SIZE_OF_FIXED_STRING_DOESNT_MATCH
  | BAD_ARGUMENTS
  | UNKNOWN_SETTING
  | CANNOT_PARSE_BOOL
  | CANNOT_PARSE_NUMBER
  | CANNOT_READ_ALL_DATA
  deriving DecidableEq, Repr

/-- `DB::Exception`: a message plus an error code. -/
structure DBException where
  message : String
  code : ErrorCode
  deriving DecidableEq, Repr

deriving instance DecidableEq for Except

/-! ## Binary wire primitives

`writeVarUInt` / `readVarUInt` / `writeVarInt` / `readVarInt` /
`writeBinary` / `readBinary` come from `IO/WriteHelpers.h` and
`IO/ReadHelpers.h`, which are not part of this translation unit.
Modelled from the spec: "variable-length unsigned encoding", "variable-length
signed (zig-zag ...) encoding" and "length-prefixed byte string" (spec section 4.1
and the wire-encoding table of section 6).  A buffer is a list of byte values. -/

/-- Modelled from the spec: one 7-bit group per byte, low group first, high bit
of a byte marks continuation.  `fuel` only bounds the recursion; `fuel = x`
always suffices. -/
def writeVarUIntAux : Nat → Nat → List Nat
  | 0, x => [x % 128]
  | fuel + 1, x => if x < 128 then [x] else (x % 128 + 128) :: writeVarUIntAux fuel (x / 128)

/-- Modelled from the spec: variable-length unsigned encoding of `x`. -/
def writeVarUInt (x : Nat) : List Nat :=
  writeVarUIntAux x x

/-- Modelled from the spec: read one variable-length unsigned integer from the
front of the buffer, returning the value and the remaining bytes. -/
def readVarUInt : List Nat → Except DBException (Nat × List Nat)
  | [] => .error ⟨"Cannot read all data", ErrorCode.CANNOT_READ_ALL_DATA⟩
  | b :: rest =>
    if b < 128 then .ok (b, rest)
    else
      match readVarUInt rest with
      | .ok (v, r) => .ok (v * 128 + (b - 128), r)
      | .error e => .error e

/-- Zig-zag transform used by the variable-length signed encoding. -/
def zigzag (x : Int) : Nat :=
  if 0 ≤ x then 2 * x.toNat else 2 * (-x).toNat - 1

/-- Inverse of `zigzag`. -/
def unzigzag (n : Nat) : Int :=
  if n % 2 = 0 then ((n / 2 : Nat) : Int) else -(((n / 2 : Nat) : Int) + 1)

/-- Modelled from the spec: variable-length signed (zig-zag) encoding. -/
def writeVarInt (x : Int) : List Nat :=
  writeVarUInt (zigzag x)

/-- Modelled from the spec: read one variable-length signed integer. -/
def readVarInt (buf : List Nat) : Except DBException (Int × List Nat) :=
  match readVarUInt buf with
  | .ok (n, r) => .ok (unzigzag n, r)
  | .error e => .error e

/-- Modelled from the spec: length-prefixed byte string (the length as a
variable-length unsigned integer, then the character codes). -/
def writeBinary (s : String) : List Nat :=
  writeVarUInt s.length ++ s.data.map Char.toNat

/-- Modelled from the spec: read a length-prefixed byte string. -/
def readBinary (buf : List Nat) : Except DBException (String × List Nat) :=
  match readVarUInt buf with
  | .ok (len, r) =>
    if _h : len ≤ r.length then
      .ok (⟨(r.take len).map Char.ofNat⟩, r.drop len)
    else
      .error ⟨"Cannot read all data", ErrorCode.CANNOT_READ_ALL_DATA⟩
  | .error e => .error e

/-! ## Decimal text

`DB::toString` and `parse<Type>` come from `IO/WriteHelpers.h` /
`IO/ReadHelpers.h`, outside this translation unit.  Modelled from the spec:
"parse using the type's canonical textual numeric grammar (integer or
floating-point literal)" (spec section 4.1); printing produces the canonical
decimal form. -/

/-- The character for one decimal digit (code 48 is the zero digit). -/
def digitChar (d : Nat) : Char :=
  if d < 10 then Char.ofNat (48 + d) else '*'

/-- The decimal digit denoted by a character, if any. -/
def charDigit (c : Char) : Option Nat :=
  if 48 ≤ c.toNat && c.toNat ≤ 57 then some (c.toNat - 48) else none

/-- Little-endian decimal digits of `n`; `fuel = n` always suffices. -/
def natToDigitsAux : Nat → Nat → List Nat
  | 0, _ => []
  | fuel + 1, n => if n = 0 then [] else n % 10 :: natToDigitsAux fuel (n / 10)

/-- Value of a little-endian digit list. -/
def digitsValLE : List Nat → Nat
  | [] => 0
  | d :: ds => d + 10 * digitsValLE ds

/-- Value of a big-endian digit list. -/
def digitsVal (ds : List Nat) : Nat :=
  ds.foldl (fun a d => a * 10 + d) 0

/-- Decode a character list into decimal digits; fails on a non-digit. -/
def decodeDigits : List Char → Option (List Nat)
  | [] => some []
  | c :: cs =>
    match charDigit c, decodeDigits cs with
    | some d, some ds => some (d :: ds)
    | _, _ => none

/-- Modelled from the spec: canonical decimal text of an unsigned integer
(`DB::toString` for unsigned types). -/
def printNat (n : Nat) : String :=
  if n = 0 then "0" else ⟨(natToDigitsAux n n).reverse.map digitChar⟩

/-- Core of `parse` for unsigned integers, on a character list. -/
def parseNatChars (l : List Char) : Except DBException Nat :=
  match decodeDigits l with
  | some [] => .error ⟨"Cannot parse number", ErrorCode.CANNOT_PARSE_NUMBER⟩
  | some ds => .ok (digitsVal ds)
  | none => .error ⟨"Cannot parse number", ErrorCode.CANNOT_PARSE_NUMBER⟩

/-- Modelled from the spec: `parse<UInt64>`, the canonical unsigned decimal
grammar. -/
def parseNat (s : String) : Except DBException Nat :=
  parseNatChars s.data

/-- Modelled from the spec: canonical decimal text of a signed integer
(`DB::toString` for signed types). -/
def printInt (i : Int) : String :=
  if i < 0 then "-" ++ printNat i.natAbs else printNat i.toNat

/-- Core of `parse` for signed integers, on a character list: an optional
leading minus sign, then the unsigned grammar. -/
def parseIntChars (l : List Char) : Except DBException Int :=
  if l.head? = some '-' then
    (match parseNatChars l.tail with
     | .ok n => .ok (-(n : Int))
     | .error e => .error e)
  else
    (match parseNatChars l with
     | .ok n => .ok ((n : Int))
     | .error e => .error e)

/-- Modelled from the spec: `parse<Int64>`, the canonical signed decimal
grammar. -/
def parseInt (s : String) : Except DBException Int :=
  parseIntChars s.data

/-! ## Decimal float model

`SettingNumber<float>` holds a 32-bit float.  Its text form and parser
(`DB::toString(float)` / `parse<float>`) are outside this translation unit.
Modelled from the spec: the value is identified with its canonical textual
decimal form (spec section 4.1 "floating-point literal", section 6 "length-prefixed
textual decimal string"): an optional sign, integer part, and fractional
digits. -/

/-- Modelled from the spec: a 32-bit float value, represented by its canonical
decimal components (sign, integer part, fractional digits). -/
structure FloatVal where
  neg : Bool
  ip : Nat
  fp : List Nat
  deriving DecidableEq, Repr

/-- The fractional digits of a well-formed `FloatVal` are decimal digits. -/
def FloatVal.valid (v : FloatVal) : Prop :=
  ∀ d ∈ v.fp, d < 10

instance (v : FloatVal) : Decidable v.valid := by
  unfold FloatVal.valid
  infer_instance

/-- Modelled from the spec: canonical decimal text of a float value. -/
def printFloat (v : FloatVal) : String :=
  (if v.neg then "-" else "") ++ printNat v.ip ++ "." ++ ⟨v.fp.map digitChar⟩

/-- Split a character list at the first dot. -/
def splitAtDot : List Char → Option (List Char × List Char)
  | [] => none
  | c :: cs =>
    if c = '.' then some ([], cs)
    else
      match splitAtDot cs with
      | some (a, b) => some (c :: a, b)
      | none => none

/-- Parse the unsigned part of a float literal. -/
def parseFloatAbs (neg : Bool) (l : List Char) : Except DBException FloatVal :=
  match splitAtDot l with
  | some (ipcs, fpcs) =>
    (match parseNatChars ipcs, decodeDigits fpcs with
     | .ok n, some fs => .ok ⟨neg, n, fs⟩
     | _, _ => .error ⟨"Cannot parse number", ErrorCode.CANNOT_PARSE_NUMBER⟩)
  | none =>
    (match parseNatChars l with
     | .ok n => .ok ⟨neg, n, []⟩
     | .error e => .error e)

/-- Modelled from the spec: `parse<float>`, the canonical float literal
grammar. -/
def parseFloat (s : String) : Except DBException FloatVal :=
  match s.data with
  | '-' :: rest => parseFloatAbs true rest
  | l => parseFloatAbs false l

/-! ## Small string helpers -/

/-- Modelled from the spec: ASCII lower-casing used by the case-insensitive
keyword comparison (C `tolower` on ASCII). -/
def lowerChar (c : Char) : Char :=
  if 65 ≤ c.toNat && c.toNat ≤ 90 then Char.ofNat (c.toNat + 32) else c

/-- Lower-case every character of a string. -/
def lowerString (s : String) : String :=
  ⟨s.data.map lowerChar⟩

/-- `startsWith` from `Common/StringUtils.h`: does `s` begin with `pat`? -/
def beginsWith : List Char → List Char → Bool
  | _, [] => true
  | [], _ :: _ => false
  | c :: cs, p :: ps => c == p && beginsWith cs ps

/-! ## The interchange value (`Field`)

External collaborator, from `Core/Field.h`.  Modelled from the spec: "a tagged
union capable of holding an unsigned integer, signed integer, float, or
string" (spec section 2). -/

/-- The generic interchange value (`DB::Field`; named `DBField` because Lean\nreserves `Field`). -/
inductive DBField where
  | uint (v : Nat)
  | int (v : Int)
  | float (v : FloatVal)
  | str (s : String)
  deriving DecidableEq, Repr

/-- `x.getType() == Field::Types::String` -/
def DBField.isString : DBField → Bool
  | .str _ => true
  | _ => false

/-- `safeGet<UInt64>`: succeeds only when the field holds an unsigned integer
(`TYPE_MISMATCH` otherwise). -/
def safeGetUInt64 : DBField → Except DBException Nat
  | .uint v => .ok v
  | _ => .error ⟨"Bad get: type mismatch", ErrorCode.TYPE_MISMATCH⟩

/-- `safeGet<const String &>`: succeeds only when the field holds a string. -/
def safeGetString : DBField → Except DBException String
  | .str s => .ok s
  | _ => .error ⟨"Bad get: type mismatch", ErrorCode.TYPE_MISMATCH⟩

/-! ## SettingNumber

`template <typename Type> struct SettingNumber` of `SettingsCommon.h` /
`SettingsCommon.cpp`.  The atomic member `Data { Type value; bool changed; }`
becomes the structure itself; `data.load()` / `data.store()` become reading
and rebuilding the structure. -/

/-- The 2-field atomic record `{value, changed}` of a scalar setting. -/
structure SettingNumber (α : Type) where
  value : α
  changed : Bool
  deriving DecidableEq, Repr

/-- Modelled from the spec: a cell is constructed with a default value and
`changed = false` (spec section 3, lifecycle). -/
def SettingNumber.construct {α : Type} (d : α) : SettingNumber α :=
  { value := d, changed := false }

/-- `getValue()`: load the snapshot and return its value. -/
def SettingNumber.getValue {α : Type} (s : SettingNumber α) : α :=
  s.value

/-- `set(Type x)`: `data.store(Data{x, true})`. -/
def SettingNumber.set {α : Type} (_s : SettingNumber α) (x : α) : SettingNumber α :=
  { value := x, changed := true }

/-- `FieldVisitorConvertToNumber<Type>` is outside this translation unit.
Modelled from the spec: "numerically convert using standard numeric coercion"
(spec section 4.1); the rounding/overflow policy is unspecified (spec section 9),
so a fixed deterministic policy is chosen; strings never reach the visitor. -/
def fieldToUInt64 : DBField → Nat
  | .uint v => v
  | .int v => (v % (2 ^ 64 : Int)).toNat
  | .float v => v.ip
  | .str _ => 0

/-- Modelled from the spec: numeric coercion into a signed 64-bit value. -/
def fieldToInt64 : DBField → Int
  | .uint v => (v : Int)
  | .int v => v
  | .float v => if v.neg then -(v.ip : Int) else (v.ip : Int)
  | .str _ => 0

/-- Modelled from the spec: numeric coercion into a float value. -/
def fieldToFloat : DBField → FloatVal
  | .uint v => ⟨false, v, []⟩
  | .int v => ⟨v < 0, v.natAbs, []⟩
  | .float v => v
  | .str _ => ⟨false, 0, []⟩

/-- Modelled from the spec: numeric coercion into a boolean. -/
def fieldToBool : DBField → Bool
  | .uint v => v != 0
  | .int v => v != 0
  | .float v => v.ip != 0 || v.fp.any (· != 0)
  | .str _ => false

/-- `set(const Field & x)`: a textual field goes through string parsing,
anything else through numeric conversion.  Parametrized by the per-type
conversion and string setter, mirroring the template. -/
def SettingNumber.setField {α : Type} (conv : DBField → α)
    (setStr : SettingNumber α → String → Except DBException (SettingNumber α))
    (s : SettingNumber α) (x : DBField) : Except DBException (SettingNumber α) :=
  match x with
  | .str v => setStr s v
  | _ => .ok (s.set (conv x))

/-- `operator=`: store the source snapshot into the destination. -/
def SettingNumber.assign {α : Type} (_s o : SettingNumber α) : SettingNumber α :=
  { value := o.value, changed := o.changed }

/-- `set(const String & x)` for non-boolean numeric types: `set(parse<Type>(x))`. -/
def SettingNumber.setStringVia {α : Type} (parse : String → Except DBException α)
    (s : SettingNumber α) (x : String) : Except DBException (SettingNumber α) :=
  match parse x with
  | .ok v => .ok (s.set v)
  | .error e => .error e

/-- The `SettingNumber<bool>::set(const String &)` specialization: a
one-character string must be `"0"` or `"1"`; otherwise the keywords
`true` / `false` are matched case-insensitively (the case-insensitive keyword
check `checkStringCaseInsensitive` is outside this translation unit and is
modelled from the spec: "matched case-insensitively against the literal
keywords `true`/`false`", spec section 4.1). -/
def SettingNumber.setStringBool (s : SettingNumber Bool) (x : String) :
    Except DBException (SettingNumber Bool) :=
  if x.length = 1 then
    if x = "0" then .ok (s.set false)
    else if x = "1" then .ok (s.set true)
    else .error ⟨"Cannot parse bool from string '" ++ x ++ "'", ErrorCode.CANNOT_PARSE_BOOL⟩
  else
    if lowerString x = "true" then .ok (s.set true)
    else if lowerString x = "false" then .ok (s.set false)
    else .error ⟨"Cannot parse bool from string '" ++ x ++ "'", ErrorCode.CANNOT_PARSE_BOOL⟩

/-- `toString()` for `SettingNumber<UInt64>`: `DB::toString(getValue())`. -/
def SettingNumber.toStringU (s : SettingNumber Nat) : String :=
  printNat s.getValue

/-- `toString()` for `SettingNumber<Int64>`. -/
def SettingNumber.toStringI (s : SettingNumber Int) : String :=
  printInt s.getValue

/-- `toString()` for `SettingNumber<float>`. -/
def SettingNumber.toStringF (s : SettingNumber FloatVal) : String :=
  printFloat s.getValue

/-- `toString()` for `SettingNumber<bool>`.  `DB::toString` prints a boolean
as a numeral; modelled from the spec wire table ("boolean: 0/1"). -/
def SettingNumber.toStringB (s : SettingNumber Bool) : String :=
  if s.getValue then "1" else "0"

/-- `toField()`: return the value as an interchange value. -/
def SettingNumber.toFieldU (s : SettingNumber Nat) : DBField :=
  .uint s.getValue

/-- `toField()` for the signed instantiation. -/
def SettingNumber.toFieldI (s : SettingNumber Int) : DBField :=
  .int s.getValue

/-- `toField()` for the float instantiation. -/
def SettingNumber.toFieldF (s : SettingNumber FloatVal) : DBField :=
  .float s.getValue

/-- `toField()` for the boolean instantiation (`bool` converts to an unsigned
field). -/
def SettingNumber.toFieldB (s : SettingNumber Bool) : DBField :=
  .uint (if s.getValue then 1 else 0)

/-- `set(const String &)` for `SettingNumber<UInt64>`. -/
def SettingNumber.setStringU (s : SettingNumber Nat) (x : String) :
    Except DBException (SettingNumber Nat) :=
  SettingNumber.setStringVia parseNat s x

/-- `set(const String &)` for `SettingNumber<Int64>`. -/
def SettingNumber.setStringI (s : SettingNumber Int) (x : String) :
    Except DBException (SettingNumber Int) :=
  SettingNumber.setStringVia parseInt s x

/-- `set(const String &)` for `SettingNumber<float>`. -/
def SettingNumber.setStringF (s : SettingNumber FloatVal) (x : String) :
    Except DBException (SettingNumber FloatVal) :=
  SettingNumber.setStringVia parseFloat s x

/-- `serialize` for the unsigned instantiation: `writeVarUInt(value)`. -/
def SettingNumber.serializeU (s : SettingNumber Nat) : List Nat :=
  writeVarUInt s.getValue

/-- `serialize` for the signed instantiation: `writeVarInt(value)`. -/
def SettingNumber.serializeI (s : SettingNumber Int) : List Nat :=
  writeVarInt s.getValue

/-- `serialize` for the float instantiation: `writeBinary(toString())`. -/
def SettingNumber.serializeF (s : SettingNumber FloatVal) : List Nat :=
  writeBinary s.toStringF

/-- `serialize` for the boolean instantiation: `bool` is integral and
unsigned, so `writeVarUInt(static_cast<UInt64>(value))`. -/
def SettingNumber.serializeB (s : SettingNumber Bool) : List Nat :=
  writeVarUInt (if s.getValue then 1 else 0)

/-- `deserialize` for the unsigned instantiation: read a var-uint, then `set`. -/
def SettingNumber.deserializeU (s : SettingNumber Nat) (buf : List Nat) :
    Except DBException (SettingNumber Nat × List Nat) :=
  match readVarUInt buf with
  | .ok (x, r) => .ok (s.set x, r)
  | .error e => .error e

/-- `deserialize` for the signed instantiation: read a var-int, then `set`. -/
def SettingNumber.deserializeI (s : SettingNumber Int) (buf : List Nat) :
    Except DBException (SettingNumber Int × List Nat) :=
  match readVarInt buf with
  | .ok (x, r) => .ok (s.set x, r)
  | .error e => .error e

/-- `deserialize` for the float instantiation: read a length-prefixed string,
then `set(string)`. -/
def SettingNumber.deserializeF (s : SettingNumber FloatVal) (buf : List Nat) :
    Except DBException (SettingNumber FloatVal × List Nat) :=
  match readBinary buf with
  | .ok (x, r) =>
    (match s.setStringF x with
     | .ok s2 => .ok (s2, r)
     | .error e => .error e)
  | .error e => .error e

/-- `deserialize` for the boolean instantiation: read a var-uint, then
`set(static_cast<bool>(x))`. -/
def SettingNumber.deserializeB (s : SettingNumber Bool) (buf : List Nat) :
    Except DBException (SettingNumber Bool × List Nat) :=
  match readVarUInt buf with
  | .ok (x, r) => .ok (s.set (x != 0), r)
  | .error e => .error e

/-! ## SettingMaxThreads

The auto-sizing setting.  Its atomic record is `{UInt64 value; bool is_auto;
bool changed}`.  `getAutoValue()` caches `getNumberOfPhysicalCPUCores()`,
which is outside this translation unit; the cached count is therefore a
parameter `autoVal` of every operation that reads it. -/

/-- The 3-field atomic record of `SettingMaxThreads`. -/
structure SettingMaxThreads where
  value : Nat
  is_auto : Bool
  changed : Bool
  deriving DecidableEq, Repr

/-- Modelled from the spec: constructed in the Auto state with the cached
auto value materialized and `changed = false` (spec section 3, lifecycle:
"created with a language-appropriate default (... or auto)"). -/
def SettingMaxThreads.construct (autoVal : Nat) : SettingMaxThreads :=
  { value := autoVal, is_auto := true, changed := false }

/-- `getValue()`. -/
def SettingMaxThreads.getValue (s : SettingMaxThreads) : Nat :=
  s.value

/-- `isChanged()`. -/
def SettingMaxThreads.isChanged (s : SettingMaxThreads) : Bool :=
  s.changed

/-- `set(UInt64 x)`: `data.store({x ? x : getAutoValue(), x == 0, true})`. -/
def SettingMaxThreads.set (autoVal : Nat) (_s : SettingMaxThreads) (x : Nat) :
    SettingMaxThreads :=
  { value := if x = 0 then autoVal else x, is_auto := x == 0, changed := true }

/-- `setAuto()`: `data.store({getAutoValue(), true, isChanged()})` — note the
`changed` flag is preserved, not set. -/
def SettingMaxThreads.setAuto (autoVal : Nat) (s : SettingMaxThreads) : SettingMaxThreads :=
  { value := autoVal, is_auto := true, changed := s.isChanged }

/-- `setChanged(bool changed)`: reload the snapshot and store it back with the
new flag. -/
def SettingMaxThreads.setChanged (s : SettingMaxThreads) (changed : Bool) : SettingMaxThreads :=
  { value := s.value, is_auto := s.is_auto, changed := changed }

/-- `toString()`: `auto(<value>)` in the Auto state, else the plain number. -/
def SettingMaxThreads.toString (s : SettingMaxThreads) : String :=
  if s.is_auto then "auto(" ++ printNat s.value ++ ")" else printNat s.value

/-- `toField()`: `0` in the Auto state, else the value. -/
def SettingMaxThreads.toField (s : SettingMaxThreads) : DBField :=
  if s.is_auto then .uint 0 else .uint s.value

/-- `set(const String & x)`: a string starting with `auto` triggers
`setAuto()`, anything else is parsed as an unsigned integer. -/
def SettingMaxThreads.setString (autoVal : Nat) (s : SettingMaxThreads) (x : String) :
    Except DBException SettingMaxThreads :=
  if beginsWith x.data "auto".data then .ok (s.setAuto autoVal)
  else
    match parseNat x with
    | .ok n => .ok (SettingMaxThreads.set autoVal s n)
    | .error e => .error e

/-- `set(const Field & x)`: strings via `set(string)`, otherwise
`set(safeGet<UInt64>(x))`. -/
def SettingMaxThreads.setField (autoVal : Nat) (s : SettingMaxThreads) (x : DBField) :
    Except DBException SettingMaxThreads :=
  match x with
  | .str v => s.setString autoVal v
  | _ =>
    (match safeGetUInt64 x with
     | .ok n => .ok (SettingMaxThreads.set autoVal s n)
     | .error e => .error e)

/-- `serialize`: `writeVarUInt(is_auto ? 0 : value)`. -/
def SettingMaxThreads.serialize (s : SettingMaxThreads) : List Nat :=
  writeVarUInt (if s.is_auto then 0 else s.value)

/-- `deserialize`: read a var-uint and `set` it. -/
def SettingMaxThreads.deserialize (autoVal : Nat) (s : SettingMaxThreads) (buf : List Nat) :
    Except DBException (SettingMaxThreads × List Nat) :=
  match readVarUInt buf with
  | .ok (x, r) => .ok (SettingMaxThreads.set autoVal s x, r)
  | .error e => .error e

/-- `operator=`: store the source snapshot. -/
def SettingMaxThreads.assign (_s o : SettingMaxThreads) : SettingMaxThreads :=
  { value := o.value, is_auto := o.is_auto, changed := o.changed }

/-! ## SettingTimespan

`template <SettingTimespanIO io_unit> struct SettingTimespan`, instantiated
at second and millisecond resolution.  The `Poco::Timespan value` member is
its microsecond count; all C++ arithmetic on it is 64-bit, so the count is
kept reduced modulo `2 ^ 64`.  (The enum is named `SettingTimespanUnit` here.) -/

/-- The two textual/binary resolutions of a timespan setting. -/
inductive SettingTimespanUnit where
  | SECOND
  | MILLISECOND
  deriving DecidableEq, Repr

/-- `microseconds_per_io_unit`: 1000000 for seconds, 1000 for milliseconds. -/
def microsecondsPerUnit : SettingTimespanUnit → Nat
  | .SECOND => 1000000
  | .MILLISECOND => 1000

/-- The `{Poco::Timespan value; bool changed}` state of a timespan setting
(`value` is the microsecond count, as a 64-bit quantity). -/
structure SettingTimespan where
  value : Nat
  changed : Bool
  deriving DecidableEq, Repr

/-- Modelled from the spec: constructed with a default duration and
`changed = false` (spec section 3, lifecycle). -/
def SettingTimespan.construct (us : Nat) : SettingTimespan :=
  { value := us % 2 ^ 64, changed := false }

/-- `getValue()` (under a shared lock in C++). -/
def SettingTimespan.getValue (s : SettingTimespan) : Nat :=
  s.value

/-- `set(const Poco::Timespan & x)`: store the duration, set `changed`. -/
def SettingTimespan.setTimespan (_s : SettingTimespan) (us : Nat) : SettingTimespan :=
  { value := us, changed := true }

/-- `set(UInt64 x)`: `set(Poco::Timespan(x * microseconds_per_io_unit))` —
the multiplication is 64-bit unsigned and wraps. -/
def SettingTimespan.setUInt (u : SettingTimespanUnit) (s : SettingTimespan) (x : Nat) :
    SettingTimespan :=
  s.setTimespan (x * microsecondsPerUnit u % 2 ^ 64)

/-- `set(const String & x)`: `set(parse<UInt64>(x))`. -/
def SettingTimespan.setString (u : SettingTimespanUnit) (s : SettingTimespan) (x : String) :
    Except DBException SettingTimespan :=
  match parseNat x with
  | .ok n => .ok (s.setUInt u n)
  | .error e => .error e

/-- `set(const Field & x)`: strings via `set(string)`, otherwise
`set(safeGet<UInt64>(x))`. -/
def SettingTimespan.setField (u : SettingTimespanUnit) (s : SettingTimespan) (x : DBField) :
    Except DBException SettingTimespan :=
  match x with
  | .str v => s.setString u v
  | _ =>
    (match safeGetUInt64 x with
     | .ok n => .ok (s.setUInt u n)
     | .error e => .error e)

/-- `setChanged(bool c)` (under an exclusive lock in C++). -/
def SettingTimespan.setChanged (s : SettingTimespan) (c : Bool) : SettingTimespan :=
  { value := s.value, changed := c }

/-- `toString()`: `totalMicroseconds() / microseconds_per_io_unit`. -/
def SettingTimespan.toString (u : SettingTimespanUnit) (s : SettingTimespan) : String :=
  printNat (s.getValue / microsecondsPerUnit u)

/-- `toField()`: the same quotient as an unsigned interchange value. -/
def SettingTimespan.toField (u : SettingTimespanUnit) (s : SettingTimespan) : DBField :=
  .uint (s.getValue / microsecondsPerUnit u)

/-- `serialize`: `writeVarUInt(totalMicroseconds() / microseconds_per_io_unit)`. -/
def SettingTimespan.serialize (u : SettingTimespanUnit) (s : SettingTimespan) : List Nat :=
  writeVarUInt (s.getValue / microsecondsPerUnit u)

/-- `deserialize`: read a var-uint and `set` it. -/
def SettingTimespan.deserialize (u : SettingTimespanUnit) (s : SettingTimespan) (buf : List Nat) :
    Except DBException (SettingTimespan × List Nat) :=
  match readVarUInt buf with
  | .ok (x, r) => .ok (s.setUInt u x, r)
  | .error e => .error e

/-- Copy construction / `operator=`: copy both fields under the source's
shared lock. -/
def SettingTimespan.assign (_s o : SettingTimespan) : SettingTimespan :=
  { value := o.value, changed := o.changed }

/-! ## SettingString -/

/-- The `{String value; bool changed}` state of the text setting. -/
structure SettingString where
  value : String
  changed : Bool
  deriving DecidableEq, Repr

/-- Modelled from the spec: constructed with a default string and
`changed = false` (spec section 3, lifecycle). -/
def SettingString.construct (d : String) : SettingString :=
  { value := d, changed := false }

/-- `toString()` (shared lock): the stored string. -/
def SettingString.toString (s : SettingString) : String :=
  s.value

/-- `toField()` (shared lock): the stored string as an interchange value. -/
def SettingString.toField (s : SettingString) : DBField :=
  .str s.value

/-- `set(const String & x)` (exclusive lock): store and mark changed. -/
def SettingString.set (_s : SettingString) (x : String) : SettingString :=
  { value := x, changed := true }

/-- `setChanged(bool c)`. -/
def SettingString.setChanged (s : SettingString) (c : Bool) : SettingString :=
  { value := s.value, changed := c }

/-- `set(const Field & x)`: `set(safeGet<const String &>(x))`. -/
def SettingString.setField (s : SettingString) (x : DBField) :
    Except DBException SettingString :=
  match safeGetString x with
  | .ok v => .ok (s.set v)
  | .error e => .error e

/-- `serialize`: `writeBinary(value)`. -/
def SettingString.serialize (s : SettingString) : List Nat :=
  writeBinary s.value

/-- `deserialize`: read a length-prefixed string and `set` it. -/
def SettingString.deserialize (s : SettingString) (buf : List Nat) :
    Except DBException (SettingString × List Nat) :=
  match readBinary buf with
  | .ok (x, r) => .ok (s.set x, r)
  | .error e => .error e

/-- Copy construction / `operator=` (source's shared lock). -/
def SettingString.assign (_s o : SettingString) : SettingString :=
  { value := o.value, changed := o.changed }

/-! ## SettingChar -/

/-- The `{char value; bool changed}` atomic record of the char setting. -/
structure SettingChar where
  value : Char
  changed : Bool
  deriving DecidableEq, Repr

/-- Modelled from the spec: constructed with a default character and
`changed = false` (spec section 3, lifecycle). -/
def SettingChar.construct (d : Char) : SettingChar :=
  { value := d, changed := false }

/-- `getValue()`. -/
def SettingChar.getValue (s : SettingChar) : Char :=
  s.value

/-- `toString()`: `String(1, getValue())` — always a one-character string. -/
def SettingChar.toString (s : SettingChar) : String :=
  ⟨[s.getValue]⟩

/-- `toField()`: `toString()` as a string interchange value. -/
def SettingChar.toField (s : SettingChar) : DBField :=
  .str s.toString

/-- `set(char x)`: `data.store({x, true})`. -/
def SettingChar.set (_s : SettingChar) (x : Char) : SettingChar :=
  { value := x, changed := true }

/-- `set(const String & x)`: more than one character is a
`SIZE_OF_FIXED_STRING_DOESNT_MATCH` error; the empty string stores the null
character. -/
def SettingChar.setString (s : SettingChar) (x : String) :
    Except DBException SettingChar :=
  if x.length > 1 then
    .error ⟨"A setting's value string has to be an exactly one character long",
      ErrorCode.SIZE_OF_FIXED_STRING_DOESNT_MATCH⟩
  else
    .ok (s.set (match x.data with
      | c :: _ => c
      | [] => Char.ofNat 0))

/-- `set(const Field & x)`: `set(safeGet<const String &>(x))` through the
string setter. -/
def SettingChar.setField (s : SettingChar) (x : DBField) :
    Except DBException SettingChar :=
  match safeGetString x with
  | .ok v => s.setString v
  | .error e => .error e

/-- `serialize`: `writeBinary(toString())`. -/
def SettingChar.serialize (s : SettingChar) : List Nat :=
  writeBinary s.toString

/-- `deserialize`: read a length-prefixed string, then `set(string)`. -/
def SettingChar.deserialize (s : SettingChar) (buf : List Nat) :
    Except DBException (SettingChar × List Nat) :=
  match readBinary buf with
  | .ok (x, r) =>
    (match s.setString x with
     | .ok s2 => .ok (s2, r)
     | .error e => .error e)
  | .error e => .error e

/-- `operator=`: store the source snapshot. -/
def SettingChar.assign (_s o : SettingChar) : SettingChar :=
  { value := o.value, changed := o.changed }

/-! ## SettingEnum and the name tables

`template <typename EnumType, typename Tag> struct SettingEnum`, plus the
`IMPLEMENT_SETTING_ENUM[_WITH_TAG]` macro bodies.  A name table is the list
of `(member, io_name)` pairs the `LIST_OF_NAMES` macro expands to; the
generated `toString` is a first-match lookup by member (the `switch`), the
generated `set(String)` is a first-match linear scan by name. -/

/-- The `{EnumType value; bool changed}` atomic record of an enum setting. -/
structure SettingEnum (α : Type) where
  value : α
  changed : Bool
  deriving DecidableEq, Repr

/-- Modelled from the spec: constructed with a default member and
`changed = false` (spec section 3, lifecycle). -/
def SettingEnum.construct {α : Type} (d : α) : SettingEnum α :=
  { value := d, changed := false }

/-- `getValue()`. -/
def SettingEnum.getValue {α : Type} (s : SettingEnum α) : α :=
  s.value

/-- `set(EnumType x)`: `data.store({x, true})`. -/
def SettingEnum.set {α : Type} (_s : SettingEnum α) (x : α) : SettingEnum α :=
  { value := x, changed := true }

/-- The generated `toString()`: the `switch` over the name table; a member
outside the table is the fatal "Unknown <Enum>" error. -/
def enumToString {α : Type} [DecidableEq α] (table : List (α × String)) (name : String)
    (code : ErrorCode) (v : α) : Except DBException String :=
  match table.find? (fun p => decide (p.1 = v)) with
  | some p => .ok p.2
  | none => .error ⟨"Unknown " ++ name, code⟩

/-- The `IMPLEMENT_SETTING_ENUM_CONCAT_NAMES_HELPER_` accumulation: build the
comma-separated, quoted keyword list. -/
def concatNames {α : Type} (table : List (α × String)) : String :=
  table.foldl (fun acc p => (if acc = "" then acc else acc ++ ", ") ++ "'" ++ p.2 ++ "'") ""

/-- The generated `set(const String & s)`: first-match linear scan of the
name table; no match is the "Unknown <Enum> : '<s>', must be one of ..."
error. -/
def SettingEnum.setString {α : Type} (table : List (α × String)) (name : String)
    (code : ErrorCode) (s : SettingEnum α) (x : String) :
    Except DBException (SettingEnum α) :=
  match table.find? (fun p => p.2 == x) with
  | some p => .ok (s.set p.1)
  | none =>
    .error ⟨"Unknown " ++ name ++ " : '" ++ x ++ "', must be one of " ++ concatNames table,
      code⟩

/-- `serialize`: `writeBinary(toString())` — the canonical keyword as a
length-prefixed string. -/
def SettingEnum.serialize {α : Type} [DecidableEq α] (table : List (α × String)) (name : String)
    (code : ErrorCode) (s : SettingEnum α) : Except DBException (List Nat) :=
  match enumToString table name code s.getValue with
  | .ok str => .ok (writeBinary str)
  | .error e => .error e

/-- `deserialize`: read a length-prefixed string, then `set(string)`. -/
def SettingEnum.deserialize {α : Type} (table : List (α × String)) (name : String)
    (code : ErrorCode) (s : SettingEnum α) (buf : List Nat) :
    Except DBException (SettingEnum α × List Nat) :=
  match readBinary buf with
  | .ok (x, r) =>
    (match s.setString table name code x with
     | .ok s2 => .ok (s2, r)
     | .error e => .error e)
  | .error e => .error e

/-- `operator=`: store the source snapshot. -/
def SettingEnum.assign {α : Type} (_s o : SettingEnum α) : SettingEnum α :=
  { value := o.value, changed := o.changed }

/-- `enum class LoadBalancing`. -/
inductive LoadBalancing where
  | RANDOM
  | NEAREST_HOSTNAME
  | IN_ORDER
  | FIRST_OR_RANDOM
  deriving DecidableEq, BEq, Repr

/-- `LOAD_BALANCING_LIST_OF_NAMES`. -/
def LOAD_BALANCING_LIST_OF_NAMES : List (LoadBalancing × String) :=
  [(.RANDOM, "random"),
   (.NEAREST_HOSTNAME, "nearest_hostname"),
   (.IN_ORDER, "in_order"),
   (.FIRST_OR_RANDOM, "first_or_random")]

/-- `enum class JoinStrictness`. -/
inductive JoinStrictness where
  | Unspecified
  | ALL
  | ANY
  deriving DecidableEq, BEq, Repr

/-- `JOIN_STRICTNESS_LIST_OF_NAMES`. -/
def JOIN_STRICTNESS_LIST_OF_NAMES : List (JoinStrictness × String) :=
  [(.Unspecified, ""),
   (.ALL, "ALL"),
   (.ANY, "ANY")]

/-- `enum class TotalsMode`. -/
inductive TotalsMode where
  | BEFORE_HAVING
  | AFTER_HAVING_EXCLUSIVE
  | AFTER_HAVING_INCLUSIVE
  | AFTER_HAVING_AUTO
  deriving DecidableEq, BEq, Repr

/-- `TOTALS_MODE_LIST_OF_NAMES`. -/
def TOTALS_MODE_LIST_OF_NAMES : List (TotalsMode × String) :=
  [(.BEFORE_HAVING, "before_having"),
   (.AFTER_HAVING_EXCLUSIVE, "after_having_exclusive"),
   (.AFTER_HAVING_INCLUSIVE, "after_having_inclusive"),
   (.AFTER_HAVING_AUTO, "after_having_auto")]

/-- `enum class OverflowMode`. -/
inductive OverflowMode where
  | THROW
  | BREAK
  | ANY
  deriving DecidableEq, BEq, Repr

/-- `OVERFLOW_MODE_LIST_OF_NAMES` (the plain table, without `ANY`). -/
def OVERFLOW_MODE_LIST_OF_NAMES : List (OverflowMode × String) :=
  [(.THROW, "throw"),
   (.BREAK, "break")]

/-- `OVERFLOW_MODE_LIST_OF_NAMES_WITH_ANY` (the group-by tag's table). -/
def OVERFLOW_MODE_LIST_OF_NAMES_WITH_ANY : List (OverflowMode × String) :=
  [(.THROW, "throw"),
   (.BREAK, "break"),
   (.ANY, "any")]

/-- `enum class DistributedProductMode`. -/
inductive DistributedProductMode where
  | DENY
  | LOCAL
  | GLOBAL
  | ALLOW
  deriving DecidableEq, BEq, Repr

/-- `DISTRIBUTED_PRODUCT_MODE_LIST_OF_NAMES`. -/
def DISTRIBUTED_PRODUCT_MODE_LIST_OF_NAMES : List (DistributedProductMode × String) :=
  [(.DENY, "deny"),
   (.LOCAL, "local"),
   (.GLOBAL, "global"),
   (.ALLOW, "allow")]

/-- `FormatSettings::DateTimeInputFormat`. -/
inductive DateTimeInputFormat where
  | Basic
  | BestEffort
  deriving DecidableEq, BEq, Repr

/-- `DATE_TIME_INPUT_FORMAT_LIST_OF_NAMES`. -/
def DATE_TIME_INPUT_FORMAT_LIST_OF_NAMES : List (DateTimeInputFormat × String) :=
  [(.Basic, "basic"),
   (.BestEffort, "best_effort")]

/-- `enum class LogsLevel`. -/
inductive LogsLevel where
  | none
  | error
  | warning
  | information
  | debug
  | trace
  deriving DecidableEq, BEq, Repr

/-- `LOGS_LEVEL_LIST_OF_NAMES`. -/
def LOGS_LEVEL_LIST_OF_NAMES : List (LogsLevel × String) :=
  [(.none, "none"),
   (.error, "error"),
   (.warning, "warning"),
   (.information, "information"),
   (.debug, "debug"),
   (.trace, "trace")]

/-- Plain-language form of the keyword list: the strings joined by ", ". -/
def specKeywordList : List String → String
  | [] => ""
  | [q] => q
  | q :: qs => q ++ ", " ++ specKeywordList qs

/-- Tail form of a comma-joined list: each element preceded by ", ". -/
def specKeywordTail : List String → String
  | [] => ""
  | q :: qs => ", " ++ q ++ specKeywordTail qs

/-! ## Method-style reads

C++ reads are `const` methods on the object.  To state that a read never
mutates the cell, each read is also given in method form: state in, result
and state out, translated from the method body (load the snapshot / take the
shared lock, compute, no store). -/

/-- Method form of `SettingNumber::getValue()`. -/
def SettingNumber.getValueM {α : Type} (s : SettingNumber α) : α × SettingNumber α :=
  (s.value, s)

/-- Method form of `SettingNumber::toString()`; `fmt` is the per-type
`DB::toString` overload. -/
def SettingNumber.toStringM {α : Type} (fmt : α → String) (s : SettingNumber α) :
    String × SettingNumber α :=
  (fmt s.value, s)

/-- Method form of `SettingNumber::toField()`; `toFld` is the per-type
`Field` conversion. -/
def SettingNumber.toFieldM {α : Type} (toFld : α → DBField) (s : SettingNumber α) :
    DBField × SettingNumber α :=
  (toFld s.value, s)

/-- Method form of `SettingNumber::serialize(buf)`; `enc` is the branch of
the `if constexpr` chain taken for the type. -/
def SettingNumber.serializeM {α : Type} (enc : α → List Nat) (s : SettingNumber α) :
    List Nat × SettingNumber α :=
  (enc s.value, s)

/-- Method form of `SettingMaxThreads::getValue()`. -/
def SettingMaxThreads.getValueM (s : SettingMaxThreads) : Nat × SettingMaxThreads :=
  (s.value, s)

/-- Method form of `SettingMaxThreads::toString()`. -/
def SettingMaxThreads.toStringM (s : SettingMaxThreads) : String × SettingMaxThreads :=
  (s.toString, s)

/-- Method form of `SettingMaxThreads::toField()`. -/
def SettingMaxThreads.toFieldM (s : SettingMaxThreads) : DBField × SettingMaxThreads :=
  (s.toField, s)

/-- Method form of `SettingMaxThreads::serialize(buf)`. -/
def SettingMaxThreads.serializeM (s : SettingMaxThreads) : List Nat × SettingMaxThreads :=
  (s.serialize, s)

/-- Method form of `SettingTimespan::getValue()`. -/
def SettingTimespan.getValueM (s : SettingTimespan) : Nat × SettingTimespan :=
  (s.value, s)

/-- Method form of `SettingTimespan::toString()`. -/
def SettingTimespan.toStringM (u : SettingTimespanUnit) (s : SettingTimespan) :
    String × SettingTimespan :=
  (s.toString u, s)

/-- Method form of `SettingTimespan::toField()`. -/
def SettingTimespan.toFieldM (u : SettingTimespanUnit) (s : SettingTimespan) :
    DBField × SettingTimespan :=
  (s.toField u, s)

/-- Method form of `SettingTimespan::serialize(buf)`. -/
def SettingTimespan.serializeM (u : SettingTimespanUnit) (s : SettingTimespan) :
    List Nat × SettingTimespan :=
  (s.serialize u, s)

/-- Method form of `SettingString::toString()`. -/
def SettingString.toStringM (s : SettingString) : String × SettingString :=
  (s.value, s)

/-- Method form of `SettingString::toField()`. -/
def SettingString.toFieldM (s : SettingString) : DBField × SettingString :=
  (s.toField, s)

/-- Method form of `SettingString::serialize(buf)`. -/
def SettingString.serializeM (s : SettingString) : List Nat × SettingString :=
  (s.serialize, s)

/-- Method form of `SettingChar::getValue()`. -/
def SettingChar.getValueM (s : SettingChar) : Char × SettingChar :=
  (s.value, s)

/-- Method form of `SettingChar::toString()`. -/
def SettingChar.toStringM (s : SettingChar) : String × SettingChar :=
  (s.toString, s)

/-- Method form of `SettingChar::toField()`. -/
def SettingChar.toFieldM (s : SettingChar) : DBField × SettingChar :=
  (s.toField, s)

/-- Method form of `SettingChar::serialize(buf)`. -/
def SettingChar.serializeM (s : SettingChar) : List Nat × SettingChar :=
  (s.serialize, s)

/-- Method form of `SettingEnum::getValue()`. -/
def SettingEnum.getValueM {α : Type} (s : SettingEnum α) : α × SettingEnum α :=
  (s.value, s)

/-- Method form of the generated `SettingEnum::toString()`. -/
def SettingEnum.toStringM {α : Type} [DecidableEq α] (table : List (α × String)) (name : String)
    (code : ErrorCode) (s : SettingEnum α) : Except DBException String × SettingEnum α :=
  (enumToString table name code s.value, s)

/-- Method form of `SettingEnum::serialize(buf)`. -/
def SettingEnum.serializeM {α : Type} [DecidableEq α] (table : List (α × String)) (name : String)
    (code : ErrorCode) (s : SettingEnum α) : Except DBException (List Nat) × SettingEnum α :=
  (s.serialize table name code, s)

/-- A property of the success value of a fallible call; errors (which leave
the cell untouched) satisfy it vacuously. -/
def onOk {σ : Type} (r : Except DBException σ) (P : σ → Prop) : Prop :=
  match r with
  | .ok v => P v
  | .error _ => True

/-- The states of a `SettingMaxThreads` cell reachable through its `set`
family: Auto with the cached auto value materialized, or Explicit with a
non-zero value. -/
def MaxThreadsReachable (autoVal : Nat) (s : SettingMaxThreads) : Prop :=
  (s.is_auto = true ∧ s.value = autoVal) ∨ (s.is_auto = false ∧ s.value ≠ 0)

instance (autoVal : Nat) (s : SettingMaxThreads) : Decidable (MaxThreadsReachable autoVal s) := by
  unfold MaxThreadsReachable
  infer_instance

/-- Round-trip property of one enum name table: every member's canonical
keyword maps back to the member through `set(string)`, and
`deserialize ∘ serialize` reproduces the member. -/
def enumTableRoundTrip {α : Type} [DecidableEq α] (table : List (α × String))
    (name : String) (code : ErrorCode) : Prop :=
  ∀ p ∈ table, ∀ (b : Bool), ∀ q ∈ table,
    enumToString table name code p.1 = .ok p.2 ∧
    SettingEnum.setString table name code ⟨q.1, b⟩ p.2 = .ok ⟨p.1, true⟩ ∧
    SettingEnum.serialize table name code ⟨p.1, b⟩ = .ok (writeBinary p.2) ∧
    SettingEnum.deserialize table name code ⟨q.1, b⟩ (writeBinary p.2) = .ok (⟨p.1, true⟩, [])

instance {α : Type} [DecidableEq α] (table : List (α × String)) (name : String)
    (code : ErrorCode) : Decidable (enumTableRoundTrip table name code) := by
  unfold enumTableRoundTrip
  infer_instance

/-! ## Round-trip lemmas for the wire and text codecs -/

theorem readVarUIntAux_round (fuel : Nat) : ∀ (x : Nat) (rest : List Nat), x ≤ fuel →
    readVarUInt (writeVarUIntAux fuel x ++ rest) = .ok (x, rest) := by
  induction fuel with
  | zero =>
    intro x rest hx
    have hx0 : x = 0 := Nat.le_zero.mp hx
    subst hx0
    simp [writeVarUIntAux, readVarUInt]
  | succ fuel ih =>
    intro x rest hx
    by_cases h : x < 128
    · simp [writeVarUIntAux, h, readVarUInt]
    · have hdiv : x / 128 ≤ fuel := by
        have : x / 128 < x := Nat.div_lt_self (by omega) (by omega)
        omega
      have hrec := ih (x / 128) rest hdiv
      simp only [writeVarUIntAux, h, if_false, List.cons_append]
      simp only [readVarUInt]
      have hb : ¬ (x % 128 + 128 < 128) := by omega
      simp only [hb, if_false, hrec]
      have hmod : x / 128 * 128 + x % 128 = x := by omega
      simp [hmod]

/-- Round trip of the variable-length unsigned encoding. -/
theorem readVarUInt_writeVarUInt (x : Nat) (rest : List Nat) :
    readVarUInt (writeVarUInt x ++ rest) = .ok (x, rest) :=
  readVarUIntAux_round x x rest (Nat.le_refl x)

theorem unzigzag_zigzag (x : Int) : unzigzag (zigzag x) = x := by
  unfold zigzag unzigzag
  by_cases h : 0 ≤ x
  · simp only [h, if_true]
    have h2 : 2 * x.toNat % 2 = 0 := by omega
    simp only [h2, if_true]
    omega
  · simp only [h, if_false]
    have hx : 1 ≤ (-x).toNat := by omega
    have h2 : ¬ ((2 * (-x).toNat - 1) % 2 = 0) := by omega
    simp only [h2, if_false]
    omega

/-- Round trip of the variable-length signed encoding. -/
theorem readVarInt_writeVarInt (x : Int) (rest : List Nat) :
    readVarInt (writeVarInt x ++ rest) = .ok (x, rest) := by
  unfold readVarInt writeVarInt
  rw [readVarUInt_writeVarUInt]
  simp [unzigzag_zigzag]

theorem map_ofNat_toNat (l : List Char) : (l.map Char.toNat).map Char.ofNat = l := by
  induction l with
  | nil => rfl
  | cons c cs ih => simp [ih, Char.ofNat_toNat]

/-- Round trip of the length-prefixed string encoding. -/
theorem readBinary_writeBinary (s : String) (rest : List Nat) :
    readBinary (writeBinary s ++ rest) = .ok (s, rest) := by
  unfold readBinary writeBinary
  rw [List.append_assoc, readVarUInt_writeVarUInt]
  have hlen : s.length = (s.data.map Char.toNat).length := by
    rw [List.length_map]
    rfl
  have hle : s.length ≤ (s.data.map Char.toNat ++ rest).length := by
    rw [List.length_append, ← hlen]
    omega
  simp only [hle, dif_pos]
  rw [hlen]
  rw [List.take_left, List.drop_left]
  rw [map_ofNat_toNat]

theorem charDigit_digitChar (d : Nat) (hd : d < 10) : charDigit (digitChar d) = some d := by
  have h : ∀ e, e < 10 → charDigit (digitChar e) = some e := by decide
  exact h d hd

theorem digitChar_ne_dash (d : Nat) (hd : d < 10) : digitChar d ≠ '-' := by
  have h : ∀ e, e < 10 → digitChar e ≠ '-' := by decide
  exact h d hd

theorem digitChar_ne_dot (d : Nat) (hd : d < 10) : digitChar d ≠ '.' := by
  have h : ∀ e, e < 10 → digitChar e ≠ '.' := by decide
  exact h d hd

theorem natToDigitsAux_lt (fuel : Nat) : ∀ (n d : Nat), d ∈ natToDigitsAux fuel n → d < 10 := by
  induction fuel with
  | zero => intro n d hd; simp [natToDigitsAux] at hd
  | succ fuel ih =>
    intro n d hd
    by_cases h : n = 0
    · simp [natToDigitsAux, h] at hd
    · simp only [natToDigitsAux, h, if_false, List.mem_cons] at hd
      rcases hd with hd | hd
      · omega
      · exact ih (n / 10) d hd

theorem digitsValLE_natToDigitsAux (fuel : Nat) : ∀ (n : Nat), n ≤ fuel →
    digitsValLE (natToDigitsAux fuel n) = n := by
  induction fuel with
  | zero => intro n hn; simp [natToDigitsAux, digitsValLE]; omega
  | succ fuel ih =>
    intro n hn
    by_cases h : n = 0
    · simp [natToDigitsAux, h, digitsValLE]
    · have hdiv : n / 10 ≤ fuel := by
        have : n / 10 < n := Nat.div_lt_self (by omega) (by omega)
        omega
      simp only [natToDigitsAux, h, if_false, digitsValLE, ih (n / 10) hdiv]
      omega

theorem natToDigitsAux_ne_nil (fuel n : Nat) (h1 : 1 ≤ n) (h2 : n ≤ fuel) :
    natToDigitsAux fuel n ≠ [] := by
  cases fuel with
  | zero => omega
  | succ fuel =>
    have h : ¬ (n = 0) := by omega
    simp [natToDigitsAux, h]

theorem decodeDigits_map (ds : List Nat) (h : ∀ d ∈ ds, d < 10) :
    decodeDigits (ds.map digitChar) = some ds := by
  induction ds with
  | nil => rfl
  | cons d ds ih =>
    have hd : d < 10 := h d (List.mem_cons_self d ds)
    have hds : ∀ e ∈ ds, e < 10 := fun e he => h e (List.mem_cons_of_mem d he)
    simp only [List.map_cons, decodeDigits, charDigit_digitChar d hd, ih hds]

theorem digitsVal_reverse (ds : List Nat) : digitsVal ds.reverse = digitsValLE ds := by
  induction ds with
  | nil => rfl
  | cons d ds ih =>
    rw [List.reverse_cons]
    unfold digitsVal at ih ⊢
    rw [List.foldl_append, ih]
    simp [digitsValLE]
    ring

theorem printNat_chars (n : Nat) : ∀ c ∈ (printNat n).data, ∃ d, d < 10 ∧ c = digitChar d := by
  intro c hc
  unfold printNat at hc
  by_cases h : n = 0
  · simp [h] at hc
    exact ⟨0, by omega, hc⟩
  · simp only [h, if_false] at hc
    have hc2 : c ∈ (natToDigitsAux n n).reverse.map digitChar := hc
    rw [List.mem_map] at hc2
    rcases hc2 with ⟨d, hd, hcd⟩
    rw [List.mem_reverse] at hd
    exact ⟨d, natToDigitsAux_lt n n d hd, hcd.symm⟩

theorem printNat_data_ne_nil (n : Nat) : (printNat n).data ≠ [] := by
  unfold printNat
  by_cases h : n = 0
  · simp [h]
  · simp only [h, if_false]
    have := natToDigitsAux_ne_nil n n (by omega) (Nat.le_refl n)
    simp [this]

theorem parseNatChars_printNat (n : Nat) : parseNatChars (printNat n).data = .ok n := by
  unfold printNat
  by_cases h : n = 0
  · subst h; decide
  · simp only [h, if_false]
    have hlt : ∀ d ∈ (natToDigitsAux n n).reverse, d < 10 := by
      intro d hd
      rw [List.mem_reverse] at hd
      exact natToDigitsAux_lt n n d hd
    have hdec : decodeDigits ((natToDigitsAux n n).reverse.map digitChar) =
        some (natToDigitsAux n n).reverse := decodeDigits_map _ hlt
    have hne : (natToDigitsAux n n).reverse ≠ [] := by
      simp [natToDigitsAux_ne_nil n n (by omega) (Nat.le_refl n)]
    rcases List.exists_cons_of_ne_nil hne with ⟨d, tl, htl⟩
    unfold parseNatChars
    rw [hdec, htl]
    have hval : digitsVal (d :: tl) = n := by
      rw [← htl, digitsVal_reverse, digitsValLE_natToDigitsAux n n (Nat.le_refl n)]
    simp [hval]

/-- Unsigned decimal round trip: parsing the canonical text of `n` gives `n`. -/
theorem parseNat_printNat (n : Nat) : parseNat (printNat n) = .ok n :=
  parseNatChars_printNat n

/-- Signed decimal round trip: parsing the canonical text of `i` gives `i`. -/
theorem parseInt_printInt (i : Int) : parseInt (printInt i) = .ok i := by
  unfold parseInt parseIntChars printInt
  by_cases h : i < 0
  · simp only [h, if_true]
    have hdata : ("-" ++ printNat i.natAbs : String).data = '-' :: (printNat i.natAbs).data := by
      rw [String.data_append]
      rfl
    rw [hdata]
    simp only [List.head?_cons, List.tail_cons]
    rw [if_pos trivial, parseNatChars_printNat]
    have hni : -((i.natAbs : Nat) : Int) = i := by omega
    show Except.ok (-((i.natAbs : Nat) : Int)) = Except.ok i
    rw [hni]
  · simp only [h, if_false]
    rcases List.exists_cons_of_ne_nil (printNat_data_ne_nil i.toNat) with ⟨c, tl, htl⟩
    have hcne : c ≠ '-' := by
      rcases printNat_chars i.toNat c (htl ▸ List.mem_cons_self c tl) with ⟨d, hd, hcd⟩
      rw [hcd]
      exact digitChar_ne_dash d hd
    rw [htl]
    simp only [List.head?_cons, List.tail_cons]
    rw [if_neg (by simp [hcne]), ← htl, parseNatChars_printNat]
    have hti : ((i.toNat : Nat) : Int) = i := by omega
    show Except.ok (((i.toNat : Nat) : Int)) = Except.ok i
    rw [hti]

theorem splitAtDot_append (a b : List Char) (h : ∀ c ∈ a, c ≠ '.') :
    splitAtDot (a ++ '.' :: b) = some (a, b) := by
  induction a with
  | nil => simp [splitAtDot]
  | cons c cs ih =>
    have hc : c ≠ '.' := h c (List.mem_cons_self c cs)
    have hcs : ∀ x ∈ cs, x ≠ '.' := fun x hx => h x (List.mem_cons_of_mem c hx)
    rw [List.cons_append]
    simp only [splitAtDot, hc, if_false, List.append_eq, ih hcs]

theorem decodeDigits_printNat (n : Nat) :
    ∃ ds, decodeDigits (printNat n).data = some ds ∧ ds ≠ [] ∧ digitsVal ds = n := by
  have h := parseNatChars_printNat n
  unfold parseNatChars at h
  rcases hdec : decodeDigits (printNat n).data with _ | ds
  · rw [hdec] at h
    simp at h
  · rw [hdec] at h
    cases ds with
    | nil => simp at h
    | cons d tl =>
      refine ⟨d :: tl, rfl, by simp, ?_⟩
      simp at h
      exact h

/-- Float literal round trip: parsing the canonical text of a well-formed
float value gives the value back. -/
theorem parseFloat_printFloat (v : FloatVal) (hv : v.valid) :
    parseFloat (printFloat v) = .ok v := by
  have hdots : ∀ c ∈ (printNat v.ip).data, c ≠ '.' := by
    intro c hc
    rcases printNat_chars v.ip c hc with ⟨d, hd, hcd⟩
    rw [hcd]
    exact digitChar_ne_dot d hd
  have hsplit : splitAtDot ((printNat v.ip).data ++ '.' :: v.fp.map digitChar) =
      some ((printNat v.ip).data, v.fp.map digitChar) :=
    splitAtDot_append _ _ hdots
  have habs : parseFloatAbs v.neg ((printNat v.ip).data ++ '.' :: v.fp.map digitChar) =
      .ok v := by
    unfold parseFloatAbs
    rw [hsplit]
    show (match parseNatChars (printNat v.ip).data, decodeDigits (v.fp.map digitChar) with
      | .ok n, some fs => Except.ok (⟨v.neg, n, fs⟩ : FloatVal)
      | _, _ => (.error ⟨"Cannot parse number", ErrorCode.CANNOT_PARSE_NUMBER⟩ :
          Except DBException FloatVal)) = Except.ok v
    rw [parseNatChars_printNat, decodeDigits_map v.fp hv]
  have hdot : ("." : String).data = ['.'] := rfl
  unfold parseFloat printFloat
  cases hneg : v.neg with
  | true =>
    have hdata : ((if (true : Bool) then ("-" : String) else "") ++ printNat v.ip ++ "." ++
        (⟨v.fp.map digitChar⟩ : String)).data =
        '-' :: ((printNat v.ip).data ++ '.' :: v.fp.map digitChar) := by
      simp only [if_true, String.data_append, hdot]
      show ('-' :: (printNat v.ip).data) ++ ['.'] ++ v.fp.map digitChar =
        '-' :: ((printNat v.ip).data ++ '.' :: v.fp.map digitChar)
      simp
    rw [hdata]
    rw [hneg] at habs
    exact habs
  | false =>
    have hdata : ((if (false : Bool) then ("-" : String) else "") ++ printNat v.ip ++ "." ++
        (⟨v.fp.map digitChar⟩ : String)).data =
        (printNat v.ip).data ++ '.' :: v.fp.map digitChar := by
      simp only [if_false, String.data_append, hdot]
      show (([] : List Char) ++ (printNat v.ip).data) ++ ['.'] ++ v.fp.map digitChar =
        (printNat v.ip).data ++ '.' :: v.fp.map digitChar
      simp
    rw [hdata]
    rw [hneg] at habs
    rcases List.exists_cons_of_ne_nil (printNat_data_ne_nil v.ip) with ⟨c, tl, htl⟩
    have hcne : c ≠ '-' := by
      rcases printNat_chars v.ip c (htl ▸ List.mem_cons_self c tl) with ⟨d, hd, hcd⟩
      rw [hcd]
      exact digitChar_ne_dash d hd
    rcases hmatch : (printNat v.ip).data ++ '.' :: v.fp.map digitChar with _ | ⟨c2, tl2⟩
    · rw [htl] at hmatch
      simp at hmatch
    · have hc2 : c2 ≠ '-' := by
        rw [htl, List.cons_append, List.cons.injEq] at hmatch
        rw [← hmatch.1]
        exact hcne
      rw [hmatch] at habs
      split
      · next heq =>
        rw [List.cons.injEq] at heq
        exact absurd heq.1 hc2
      · exact habs

theorem specKeywordList_cons (q : String) (qs : List String) :
    specKeywordList (q :: qs) = q ++ specKeywordTail qs := by
  induction qs generalizing q with
  | nil => simp [specKeywordList, specKeywordTail, String.append_empty]
  | cons q2 qs ih =>
    show q ++ ", " ++ specKeywordList (q2 :: qs) = q ++ (", " ++ q2 ++ specKeywordTail qs)
    rw [ih q2]
    simp [String.append_assoc]

theorem string_eq_empty_of_length (s : String) (h : s.length = 0) : s = "" := by
  cases s with
  | mk data =>
    cases data with
    | nil => rfl
    | cons c cs => simp [String.length] at h

theorem append_ne_empty_right (a b : String) (hb : b ≠ "") : a ++ b ≠ "" := by
  intro h
  have hlen := congrArg String.length h
  rw [String.length_append] at hlen
  have h0 : ("" : String).length = 0 := rfl
  have hb0 : b.length = 0 := by omega
  exact hb (string_eq_empty_of_length b hb0)

theorem quoted_ne_empty (s : String) : "'" ++ s ++ "'" ≠ "" :=
  append_ne_empty_right _ _ (by decide)

theorem concatNames_foldl_ne_empty {α : Type} (table : List (α × String)) :
    ∀ acc : String, acc ≠ "" →
      table.foldl (fun a p => (if a = "" then a else a ++ ", ") ++ "'" ++ p.2 ++ "'") acc =
        acc ++ specKeywordTail (table.map (fun p => "'" ++ p.2 ++ "'")) := by
  induction table with
  | nil =>
    intro acc hacc
    simp [specKeywordTail, String.append_empty]
  | cons p t ih =>
    intro acc hacc
    have hstep : (if acc = "" then acc else acc ++ ", ") ++ "'" ++ p.2 ++ "'" =
        acc ++ (", " ++ "'" ++ p.2 ++ "'") := by
      rw [if_neg hacc]
      simp [String.append_assoc]
    have hne : acc ++ (", " ++ "'" ++ p.2 ++ "'") ≠ "" :=
      append_ne_empty_right _ _ (append_ne_empty_right _ _ (by decide))
    show List.foldl _ ((if acc = "" then acc else acc ++ ", ") ++ "'" ++ p.2 ++ "'") t = _
    rw [hstep, ih _ hne]
    rw [List.map_cons]
    show _ = acc ++ (", " ++ ("'" ++ p.2 ++ "'") ++
      specKeywordTail (t.map (fun p => "'" ++ p.2 ++ "'")))
    simp only [String.append_assoc]

/-- The generated keyword enumeration is exactly the quoted keywords joined
by ", ". -/
theorem concatNames_eq_specKeywordList {α : Type} (table : List (α × String)) :
    concatNames table = specKeywordList (table.map (fun p => "'" ++ p.2 ++ "'")) := by
  cases table with
  | nil => rfl
  | cons p t =>
    unfold concatNames
    show List.foldl _ ((if ("" : String) = "" then "" else "" ++ ", ") ++ "'" ++ p.2 ++ "'") t = _
    rw [if_pos rfl]
    have h0 : (("" : String) ++ "'" ++ p.2 ++ "'") = "'" ++ p.2 ++ "'" := by
      simp [String.empty_append]
    rw [h0]
    rw [concatNames_foldl_ne_empty t _ (quoted_ne_empty p.2)]
    rw [List.map_cons, specKeywordList_cons]

/-! ## Shared helper lemmas about the `changed` flag -/

theorem onOk_setStringVia {α : Type} (parse : String → Except DBException α)
    (s : SettingNumber α) (x : String) :
    onOk (SettingNumber.setStringVia parse s x) (fun s2 => s2.changed = true) := by
  unfold SettingNumber.setStringVia
  cases parse x <;> simp [onOk, SettingNumber.set]

theorem onOk_setStringBool (s : SettingNumber Bool) (x : String) :
    onOk (SettingNumber.setStringBool s x) (fun s2 => s2.changed = true) := by
  unfold SettingNumber.setStringBool
  split_ifs <;> simp [onOk, SettingNumber.set]

theorem maxThreads_setString_changed (autoVal : Nat) (s : SettingMaxThreads) (x : String) :
    onOk (SettingMaxThreads.setString autoVal s x)
      (fun s2 => s2.changed = cond (beginsWith x.data ("auto".data)) s.changed true) := by
  unfold SettingMaxThreads.setString
  by_cases hb : beginsWith x.data ("auto".data) = true
  · simp [hb, onOk, SettingMaxThreads.setAuto, SettingMaxThreads.isChanged]
  · rw [if_neg hb]
    rw [Bool.not_eq_true] at hb
    cases parseNat x <;> simp [hb, onOk, SettingMaxThreads.set]

theorem charSetString_changed (s : SettingChar) (x : String) :
    onOk (s.setString x) (fun s2 => s2.changed = true) := by
  unfold SettingChar.setString
  split_ifs <;> simp [onOk, SettingChar.set]

/-! ## Claim theorems -/

/-- Claim C10 (confirmed): `SettingMaxThreads::setChanged(c)` changes only the
`changed` flag: `value` and `is_auto` keep their prior values and `changed`
becomes exactly `c`. -/
theorem maxThreads_setChanged_frame (s : SettingMaxThreads) (c : Bool) :
    (s.setChanged c).value = s.value ∧ (s.setChanged c).is_auto = s.is_auto ∧
      (s.setChanged c).changed = c :=
  ⟨rfl, rfl, rfl⟩

/-- Claim C5 counterexample: a cell holding the null character (reachable by
`set("")`) has `toString()` of length 1 — `String(1, c)` is never the empty
string — contradicting "the empty string when the stored character is the
null character". -/
theorem settingChar_null_not_empty :
    SettingChar.setString ⟨'a', false⟩ "" = .ok ⟨Char.ofNat 0, true⟩ ∧
    (SettingChar.toString ⟨Char.ofNat 0, true⟩).length = 1 ∧
    SettingChar.toString ⟨Char.ofNat 0, true⟩ ≠ "" := by
  refine ⟨by decide, rfl, by decide⟩

/-- Claim C5 (corrected): for every cell state, `toText()` and `toField()`
return the one-character string containing the stored character — also for
the null character — and `serialize` writes a length-prefixed string of
length exactly 1. -/
theorem settingChar_text_always_one_char (s : SettingChar) :
    s.toString = ⟨[s.value]⟩ ∧ s.toField = .str ⟨[s.value]⟩ ∧
      s.serialize = [1, s.value.toNat] :=
  ⟨rfl, rfl, rfl⟩

/-- Claim C8 counterexample: at `n = 2 ^ 63` the second-resolution setting's
`set(n)` wraps (`n * 1000000` exceeds 64 bits), and `toField()` afterwards
reports `0`, not `n`. -/
theorem timespan_overflow_counterexample :
    SettingTimespan.toField .SECOND
        (SettingTimespan.setUInt .SECOND ⟨0, false⟩ (2 ^ 63)) = .uint 0 ∧
    DBField.uint 0 ≠ DBField.uint (2 ^ 63) := by
  refine ⟨by decide, by decide⟩

/-- Claim C8 (corrected): for both resolutions, whenever `n` times the
resolution factor fits in 64 bits, `set(n)` stores exactly `n * factor`
microseconds and `toText()`, `toField()` and `serialize` all report exactly
`n`; the stored count is the 64-bit product `n * factor mod 2 ^ 64` in
general. -/
theorem timespan_set_reports_n (u : SettingTimespanUnit) (s : SettingTimespan) (n : Nat)
    (h : n * microsecondsPerUnit u < 2 ^ 64) :
    (s.setUInt u n).value = n * microsecondsPerUnit u ∧
    (s.setUInt u n).toString u = printNat n ∧
    (s.setUInt u n).toField u = .uint n ∧
    (s.setUInt u n).serialize u = writeVarUInt n := by
  have hmod : n * microsecondsPerUnit u % 2 ^ 64 = n * microsecondsPerUnit u :=
    Nat.mod_eq_of_lt h
  have hdiv : n * microsecondsPerUnit u % 2 ^ 64 / microsecondsPerUnit u = n := by
    rw [hmod]
    cases u <;> simp [microsecondsPerUnit]
  unfold SettingTimespan.setUInt SettingTimespan.setTimespan SettingTimespan.toString
    SettingTimespan.toField SettingTimespan.serialize SettingTimespan.getValue
  exact ⟨hmod, by rw [hdiv], by rw [hdiv], by rw [hdiv]⟩

/-- Witness for the corrected C8 theorem at `u = SECOND`, `n = 3`. -/
theorem timespan_set_reports_n_witness :
    3 * microsecondsPerUnit .SECOND < 2 ^ 64 ∧
    (SettingTimespan.setUInt .SECOND ⟨0, false⟩ 3).toField .SECOND = .uint 3 :=
  ⟨by decide, (timespan_set_reports_n .SECOND ⟨0, false⟩ 3 (by decide)).2.2.1⟩

/-- Claim C3 (confirmed): `set(0)` puts the auto-sizing cell in the Auto state
with the cached auto value materialized, `set(n)` with `n > 0` in the
Explicit state with value `n`; `toField()` and `serialize` report `0` in Auto
and the explicit value otherwise; and on every reachable state,
`set(toField())` and `deserialize(serialize())` reproduce the Auto/Explicit
state. -/
theorem maxThreads_auto_state_machine (autoVal : Nat) (s : SettingMaxThreads) (n : Nat) :
    SettingMaxThreads.set autoVal s 0 = ⟨autoVal, true, true⟩ ∧
    (n ≠ 0 → SettingMaxThreads.set autoVal s n = ⟨n, false, true⟩) ∧
    s.toField = .uint (if s.is_auto then 0 else s.value) ∧
    s.serialize = writeVarUInt (if s.is_auto then 0 else s.value) ∧
    (MaxThreadsReachable autoVal s →
      SettingMaxThreads.setField autoVal s s.toField = .ok ⟨s.value, s.is_auto, true⟩ ∧
      SettingMaxThreads.deserialize autoVal s s.serialize =
        .ok (⟨s.value, s.is_auto, true⟩, [])) := by
  obtain ⟨v, a, c⟩ := s
  refine ⟨rfl, ?_, ?_, ?_, ?_⟩
  · intro hn
    simp [SettingMaxThreads.set, hn]
  · cases a <;> simp [SettingMaxThreads.toField]
  · cases a <;> simp [SettingMaxThreads.serialize]
  · intro hreach
    have hread : readVarUInt (writeVarUInt (if a then 0 else v)) =
        .ok ((if a then 0 else v), []) := by
      have h2 := readVarUInt_writeVarUInt (if a then 0 else v) []
      rwa [List.append_nil] at h2
    rcases hreach with ⟨ha, hv⟩ | ⟨ha, hv⟩
    · simp only at ha hv
      subst ha
      subst hv
      constructor
      · simp [SettingMaxThreads.toField, SettingMaxThreads.setField, safeGetUInt64,
          SettingMaxThreads.set]
      · simp only [SettingMaxThreads.serialize, if_true]
        simp only [if_true] at hread
        simp [SettingMaxThreads.deserialize, hread, SettingMaxThreads.set]
    · simp only at ha hv
      subst ha
      constructor
      · simp [SettingMaxThreads.toField, SettingMaxThreads.setField, safeGetUInt64,
          SettingMaxThreads.set, hv]
      · simp only [SettingMaxThreads.serialize, if_false]
        simp at hread
        simp [SettingMaxThreads.deserialize, hread, SettingMaxThreads.set, hv]

/-- Witness for the C3 theorem: `n = 5` on an Explicit cell with `autoVal = 8`. -/
theorem maxThreads_auto_state_machine_witness :
    ((5 : Nat) ≠ 0 ∧ SettingMaxThreads.set 8 ⟨8, true, false⟩ 5 = ⟨5, false, true⟩) ∧
    (MaxThreadsReachable 8 ⟨5, false, true⟩ ∧
      SettingMaxThreads.setField 8 ⟨5, false, true⟩
          (SettingMaxThreads.toField ⟨5, false, true⟩) = .ok ⟨5, false, true⟩) :=
  ⟨⟨by decide, (maxThreads_auto_state_machine 8 ⟨8, true, false⟩ 5).2.1 (by decide)⟩,
   ⟨by decide, ((maxThreads_auto_state_machine 8 ⟨5, false, true⟩ 5).2.2.2.2 (by decide)).1⟩⟩

/-- Claim C2 (confirmed): for each numeric instantiation — unsigned 64-bit,
signed 64-bit, float, boolean — and every value in the type's range,
deserializing the bytes serialized from a cell holding `v` yields a cell
holding `v` (with `changed` set by the `set` inside `deserialize`), and
`set(toText(v))` stores `v` again. -/
theorem settingNumber_roundtrips :
    (∀ (s c : SettingNumber Nat) (v : Nat), v < 2 ^ 64 → c.value = v →
      SettingNumber.deserializeU s c.serializeU = .ok (⟨v, true⟩, []) ∧
      SettingNumber.setStringU s c.toStringU = .ok ⟨v, true⟩) ∧
    (∀ (s c : SettingNumber Int) (v : Int), -(2 ^ 63) ≤ v → v < 2 ^ 63 → c.value = v →
      SettingNumber.deserializeI s c.serializeI = .ok (⟨v, true⟩, []) ∧
      SettingNumber.setStringI s c.toStringI = .ok ⟨v, true⟩) ∧
    (∀ (s c : SettingNumber FloatVal) (v : FloatVal), v.valid → c.value = v →
      SettingNumber.deserializeF s c.serializeF = .ok (⟨v, true⟩, []) ∧
      SettingNumber.setStringF s c.toStringF = .ok ⟨v, true⟩) ∧
    (∀ (s c : SettingNumber Bool) (v : Bool), c.value = v →
      SettingNumber.deserializeB s c.serializeB = .ok (⟨v, true⟩, []) ∧
      SettingNumber.setStringBool s c.toStringB = .ok ⟨v, true⟩) := by
  refine ⟨?_, ?_, ?_, ?_⟩
  · intro s c v _hv hcv
    subst hcv
    constructor
    · have h := readVarUInt_writeVarUInt c.value []
      rw [List.append_nil] at h
      simp [SettingNumber.deserializeU, SettingNumber.serializeU, SettingNumber.getValue, h,
        SettingNumber.set]
    · simp [SettingNumber.setStringU, SettingNumber.toStringU, SettingNumber.getValue,
        SettingNumber.setStringVia, parseNat_printNat, SettingNumber.set]
  · intro s c v _h1 _h2 hcv
    subst hcv
    constructor
    · have h := readVarInt_writeVarInt c.value []
      rw [List.append_nil] at h
      simp [SettingNumber.deserializeI, SettingNumber.serializeI, SettingNumber.getValue, h,
        SettingNumber.set]
    · simp [SettingNumber.setStringI, SettingNumber.toStringI, SettingNumber.getValue,
        SettingNumber.setStringVia, parseInt_printInt, SettingNumber.set]
  · intro s c v hv hcv
    subst hcv
    have hparse := parseFloat_printFloat c.value hv
    constructor
    · have h := readBinary_writeBinary (printFloat c.value) []
      rw [List.append_nil] at h
      simp [SettingNumber.deserializeF, SettingNumber.serializeF, SettingNumber.toStringF,
        SettingNumber.getValue, h, SettingNumber.setStringF, SettingNumber.setStringVia,
        hparse, SettingNumber.set]
    · simp [SettingNumber.setStringF, SettingNumber.toStringF, SettingNumber.getValue,
        SettingNumber.setStringVia, hparse, SettingNumber.set]
  · intro s c v hcv
    subst hcv
    constructor
    · have h1 := readVarUInt_writeVarUInt (if c.value then 1 else 0) []
      rw [List.append_nil] at h1
      cases hb : c.value <;>
        simp_all [SettingNumber.deserializeB, SettingNumber.serializeB, SettingNumber.getValue,
          SettingNumber.set]
    · have h0 : ("0" : String).length = 1 := rfl
      have h1 : ("1" : String).length = 1 := rfl
      have h10 : ("1" : String) ≠ "0" := by decide
      cases hb : c.value <;>
        simp [SettingNumber.setStringBool, SettingNumber.toStringB, SettingNumber.getValue, hb,
          SettingNumber.set, h0, h1, h10]

/-- Witness for the C2 theorem at `v = 300`, `i = -5`, float `-12.25`,
`b = true`. -/
theorem settingNumber_roundtrips_witness :
    ((300 : Nat) < 2 ^ 64 ∧
      SettingNumber.setStringU ⟨7, false⟩ (SettingNumber.toStringU ⟨300, true⟩) =
        .ok ⟨300, true⟩) ∧
    (-(2 ^ 63) ≤ (-5 : Int) ∧ (-5 : Int) < 2 ^ 63 ∧
      SettingNumber.setStringI ⟨0, false⟩ (SettingNumber.toStringI ⟨-5, true⟩) =
        .ok ⟨-5, true⟩) ∧
    (FloatVal.valid ⟨true, 12, [2, 5]⟩ ∧
      SettingNumber.deserializeF ⟨⟨false, 0, []⟩, false⟩
          (SettingNumber.serializeF ⟨⟨true, 12, [2, 5]⟩, true⟩) =
        .ok (⟨⟨true, 12, [2, 5]⟩, true⟩, [])) ∧
    SettingNumber.deserializeB ⟨false, false⟩ (SettingNumber.serializeB ⟨true, true⟩) =
      .ok (⟨true, true⟩, []) :=
  ⟨⟨by decide, (settingNumber_roundtrips.1 ⟨7, false⟩ ⟨300, true⟩ 300 (by decide) rfl).2⟩,
   ⟨by decide, by decide,
     (settingNumber_roundtrips.2.1 ⟨0, false⟩ ⟨-5, true⟩ (-5) (by decide) (by decide) rfl).2⟩,
   ⟨by decide,
     (settingNumber_roundtrips.2.2.1 ⟨⟨false, 0, []⟩, false⟩ ⟨⟨true, 12, [2, 5]⟩, true⟩
       ⟨true, 12, [2, 5]⟩ (by decide) rfl).1⟩,
   (settingNumber_roundtrips.2.2.2 ⟨false, false⟩ ⟨true, true⟩ true rfl).1⟩

/-- Claim C4 (confirmed): the boolean `set(string)` stores `false` for the
single character `"0"`, `true` for `"1"`, and raises `CANNOT_PARSE_BOOL` for
any other single character; a multi-character string stores `true` exactly
when it equals `true` case-insensitively, `false` exactly when it equals
`false` case-insensitively, and raises `CANNOT_PARSE_BOOL` otherwise. -/
theorem bool_parse_contract (s : SettingNumber Bool) (x : String) :
    (x.length = 1 →
      (SettingNumber.setStringBool s x = .ok ⟨false, true⟩ ↔ x = "0") ∧
      (SettingNumber.setStringBool s x = .ok ⟨true, true⟩ ↔ x = "1") ∧
      (x ≠ "0" → x ≠ "1" →
        SettingNumber.setStringBool s x =
          .error ⟨"Cannot parse bool from string '" ++ x ++ "'",
            ErrorCode.CANNOT_PARSE_BOOL⟩)) ∧
    (2 ≤ x.length →
      (SettingNumber.setStringBool s x = .ok ⟨true, true⟩ ↔ lowerString x = "true") ∧
      (SettingNumber.setStringBool s x = .ok ⟨false, true⟩ ↔ lowerString x = "false") ∧
      (lowerString x ≠ "true" → lowerString x ≠ "false" →
        SettingNumber.setStringBool s x =
          .error ⟨"Cannot parse bool from string '" ++ x ++ "'",
            ErrorCode.CANNOT_PARSE_BOOL⟩)) := by
  constructor
  · intro hlen
    unfold SettingNumber.setStringBool
    rw [if_pos hlen]
    by_cases h0 : x = "0"
    · simp [h0, SettingNumber.set]
    · by_cases h1 : x = "1"
      · simp [h0, h1, SettingNumber.set]
      · simp [h0, h1, SettingNumber.set]
  · intro hlen
    have hne1 : ¬ (x.length = 1) := by omega
    unfold SettingNumber.setStringBool
    rw [if_neg hne1]
    by_cases ht : lowerString x = "true"
    · simp [ht, SettingNumber.set]
    · by_cases hf : lowerString x = "false"
      · simp [ht, hf, SettingNumber.set]
      · simp [ht, hf, SettingNumber.set]

/-- Witness for the C4 theorem: `set("yes")` fails with `CANNOT_PARSE_BOOL`. -/
theorem bool_parse_contract_witness :
    2 ≤ ("yes" : String).length ∧
    lowerString "yes" ≠ "true" ∧ lowerString "yes" ≠ "false" ∧
    SettingNumber.setStringBool ⟨false, false⟩ "yes" =
      .error ⟨"Cannot parse bool from string 'yes'", ErrorCode.CANNOT_PARSE_BOOL⟩ :=
  ⟨by decide, by decide, by decide,
    ((bool_parse_contract ⟨false, false⟩ "yes").2 (by decide)).2.2 (by decide) (by decide)⟩

/-- Claim C6 (confirmed): for every closed-enum instantiation's name table
and every member in it, `set(toText(member))` stores the member again, and
`deserialize(serialize(cell))` yields a cell holding the member, the wire
form being the canonical keyword as a length-prefixed string. -/
theorem enum_name_table_roundtrips :
    enumTableRoundTrip LOAD_BALANCING_LIST_OF_NAMES "LoadBalancing"
      ErrorCode.UNKNOWN_LOAD_BALANCING ∧
    enumTableRoundTrip JOIN_STRICTNESS_LIST_OF_NAMES "JoinStrictness"
      ErrorCode.UNKNOWN_JOIN_STRICTNESS ∧
    enumTableRoundTrip TOTALS_MODE_LIST_OF_NAMES "TotalsMode"
      ErrorCode.UNKNOWN_TOTALS_MODE ∧
    enumTableRoundTrip OVERFLOW_MODE_LIST_OF_NAMES "OverflowMode"
      ErrorCode.UNKNOWN_OVERFLOW_MODE ∧
    enumTableRoundTrip OVERFLOW_MODE_LIST_OF_NAMES_WITH_ANY "OverflowMode"
      ErrorCode.UNKNOWN_OVERFLOW_MODE ∧
    enumTableRoundTrip DISTRIBUTED_PRODUCT_MODE_LIST_OF_NAMES "DistributedProductMode"
      ErrorCode.UNKNOWN_DISTRIBUTED_PRODUCT_MODE ∧
    enumTableRoundTrip DATE_TIME_INPUT_FORMAT_LIST_OF_NAMES "DateTimeInputFormat"
      ErrorCode.BAD_ARGUMENTS ∧
    enumTableRoundTrip LOGS_LEVEL_LIST_OF_NAMES "LogsLevel"
      ErrorCode.BAD_ARGUMENTS := by
  refine ⟨?_, ?_, ?_, ?_, ?_, ?_, ?_, ?_⟩ <;> decide

/-- Claim C7 (confirmed): for any name table, `set(string)` on a string that
matches no keyword exactly raises the instantiation's unknown-value error
code and returns no new cell; the message enumerates every keyword of the
table, each quoted, joined by ", ". -/
theorem enum_unknown_string_error {α : Type} (table : List (α × String)) (name : String)
    (code : ErrorCode) (s : SettingEnum α) (x : String)
    (h : ∀ p ∈ table, p.2 ≠ x) :
    SettingEnum.setString table name code s x =
      .error ⟨"Unknown " ++ name ++ " : '" ++ x ++ "', must be one of " ++
        specKeywordList (table.map (fun p => "'" ++ p.2 ++ "'")), code⟩ := by
  unfold SettingEnum.setString
  have hf : table.find? (fun p => p.2 == x) = none := by
    rw [List.find?_eq_none]
    intro p hp
    simp only [beq_iff_eq]
    exact h p hp
  rw [hf, concatNames_eq_specKeywordList]

/-- Witness for the C7 theorem: the load-balancing table and the string
`not-a-real-keyword`. -/
theorem enum_unknown_string_error_witness :
    (∀ p ∈ LOAD_BALANCING_LIST_OF_NAMES, p.2 ≠ "not-a-real-keyword") ∧
    SettingEnum.setString LOAD_BALANCING_LIST_OF_NAMES "LoadBalancing"
        ErrorCode.UNKNOWN_LOAD_BALANCING ⟨.RANDOM, false⟩ "not-a-real-keyword" =
      .error ⟨"Unknown LoadBalancing : 'not-a-real-keyword', must be one of " ++
        specKeywordList (LOAD_BALANCING_LIST_OF_NAMES.map (fun p => "'" ++ p.2 ++ "'")),
        ErrorCode.UNKNOWN_LOAD_BALANCING⟩ :=
  ⟨by intro p hp; fin_cases hp <;> decide,
    enum_unknown_string_error LOAD_BALANCING_LIST_OF_NAMES "LoadBalancing"
      ErrorCode.UNKNOWN_LOAD_BALANCING ⟨.RANDOM, false⟩ "not-a-real-keyword"
      (by intro p hp; fin_cases hp <;> decide)⟩

/-- Claim C1 counterexample: `SettingMaxThreads::set(const String &)` with
`"auto"` succeeds — it routes through `setAuto()`, which stores
`isChanged()` back — so a fresh (never-changed) cell still has
`changed = false` after this successful set call. -/
theorem maxThreads_setString_auto_keeps_changed :
    SettingMaxThreads.setString 8 ⟨8, true, false⟩ "auto" = .ok ⟨8, true, false⟩ ∧
    (⟨8, true, false⟩ : SettingMaxThreads).changed = false := by
  refine ⟨by decide, rfl⟩

/-- Claim C1 (corrected): for every setting kind, `changed` is `false` on
construction and every successful `set` call — native, interchange, string,
or via `deserialize` — stores `changed = true`, with one exception: the
auto-sizing setting's string path (also reached from a string interchange
value) preserves the prior `changed` flag when the input starts with `auto`,
because it routes through `setAuto()`.  No read — `getValue`, `toString`,
`toField`, `serialize` — modifies the cell. -/
theorem changed_flag_contract :
    (∀ (α : Type) (d : α), (SettingNumber.construct d).changed = false) ∧
    (∀ (autoVal : Nat), (SettingMaxThreads.construct autoVal).changed = false) ∧
    (∀ (us : Nat), (SettingTimespan.construct us).changed = false) ∧
    (∀ (d : String), (SettingString.construct d).changed = false) ∧
    (∀ (d : Char), (SettingChar.construct d).changed = false) ∧
    (∀ (α : Type) (d : α), (SettingEnum.construct d).changed = false) ∧
    (∀ (α : Type) (s : SettingNumber α) (x : α), (s.set x).changed = true) ∧
    (∀ (s : SettingNumber Nat) (x : String),
      onOk (s.setStringU x) (fun s2 => s2.changed = true)) ∧
    (∀ (s : SettingNumber Int) (x : String),
      onOk (s.setStringI x) (fun s2 => s2.changed = true)) ∧
    (∀ (s : SettingNumber FloatVal) (x : String),
      onOk (s.setStringF x) (fun s2 => s2.changed = true)) ∧
    (∀ (s : SettingNumber Bool) (x : String),
      onOk (s.setStringBool x) (fun s2 => s2.changed = true)) ∧
    (∀ (s : SettingNumber Nat) (f : DBField),
      onOk (SettingNumber.setField fieldToUInt64 SettingNumber.setStringU s f)
        (fun s2 => s2.changed = true)) ∧
    (∀ (s : SettingNumber Int) (f : DBField),
      onOk (SettingNumber.setField fieldToInt64 SettingNumber.setStringI s f)
        (fun s2 => s2.changed = true)) ∧
    (∀ (s : SettingNumber FloatVal) (f : DBField),
      onOk (SettingNumber.setField fieldToFloat SettingNumber.setStringF s f)
        (fun s2 => s2.changed = true)) ∧
    (∀ (s : SettingNumber Bool) (f : DBField),
      onOk (SettingNumber.setField fieldToBool SettingNumber.setStringBool s f)
        (fun s2 => s2.changed = true)) ∧
    (∀ (s : SettingNumber Nat) (buf : List Nat),
      onOk (s.deserializeU buf) (fun r => r.1.changed = true)) ∧
    (∀ (s : SettingNumber Int) (buf : List Nat),
      onOk (s.deserializeI buf) (fun r => r.1.changed = true)) ∧
    (∀ (s : SettingNumber FloatVal) (buf : List Nat),
      onOk (s.deserializeF buf) (fun r => r.1.changed = true)) ∧
    (∀ (s : SettingNumber Bool) (buf : List Nat),
      onOk (s.deserializeB buf) (fun r => r.1.changed = true)) ∧
    (∀ (autoVal : Nat) (s : SettingMaxThreads) (x : Nat),
      (SettingMaxThreads.set autoVal s x).changed = true) ∧
    (∀ (autoVal : Nat) (s : SettingMaxThreads),
      (s.setAuto autoVal).changed = s.changed) ∧
    (∀ (autoVal : Nat) (s : SettingMaxThreads) (x : String),
      onOk (s.setString autoVal x)
        (fun s2 => s2.changed = cond (beginsWith x.data ("auto".data)) s.changed true)) ∧
    (∀ (autoVal : Nat) (s : SettingMaxThreads) (f : DBField),
      onOk (s.setField autoVal f)
        (fun s2 => s2.changed = (match f with
          | DBField.str v => cond (beginsWith v.data ("auto".data)) s.changed true
          | _ => true))) ∧
    (∀ (autoVal : Nat) (s : SettingMaxThreads) (buf : List Nat),
      onOk (s.deserialize autoVal buf) (fun r => r.1.changed = true)) ∧
    (∀ (s : SettingTimespan) (us : Nat), (s.setTimespan us).changed = true) ∧
    (∀ (u : SettingTimespanUnit) (s : SettingTimespan) (x : Nat),
      (s.setUInt u x).changed = true) ∧
    (∀ (u : SettingTimespanUnit) (s : SettingTimespan) (x : String),
      onOk (s.setString u x) (fun s2 => s2.changed = true)) ∧
    (∀ (u : SettingTimespanUnit) (s : SettingTimespan) (f : DBField),
      onOk (s.setField u f) (fun s2 => s2.changed = true)) ∧
    (∀ (u : SettingTimespanUnit) (s : SettingTimespan) (buf : List Nat),
      onOk (s.deserialize u buf) (fun r => r.1.changed = true)) ∧
    (∀ (s : SettingString) (x : String), (s.set x).changed = true) ∧
    (∀ (s : SettingString) (f : DBField),
      onOk (s.setField f) (fun s2 => s2.changed = true)) ∧
    (∀ (s : SettingString) (buf : List Nat),
      onOk (s.deserialize buf) (fun r => r.1.changed = true)) ∧
    (∀ (s : SettingChar) (x : Char), (s.set x).changed = true) ∧
    (∀ (s : SettingChar) (x : String),
      onOk (s.setString x) (fun s2 => s2.changed = true)) ∧
    (∀ (s : SettingChar) (f : DBField),
      onOk (s.setField f) (fun s2 => s2.changed = true)) ∧
    (∀ (s : SettingChar) (buf : List Nat),
      onOk (s.deserialize buf) (fun r => r.1.changed = true)) ∧
    (∀ (α : Type) (s : SettingEnum α) (x : α), (s.set x).changed = true) ∧
    (∀ (α : Type) (table : List (α × String)) (name : String) (code : ErrorCode)
        (s : SettingEnum α) (x : String),
      onOk (s.setString table name code x) (fun s2 => s2.changed = true)) ∧
    (∀ (α : Type) (table : List (α × String)) (name : String) (code : ErrorCode)
        (s : SettingEnum α) (buf : List Nat),
      onOk (s.deserialize table name code buf) (fun r => r.1.changed = true)) ∧
    (∀ (α : Type) (fmt : α → String) (toFld : α → DBField) (enc : α → List Nat)
        (s : SettingNumber α),
      (s.getValueM).2 = s ∧ (SettingNumber.toStringM fmt s).2 = s ∧
      (SettingNumber.toFieldM toFld s).2 = s ∧ (SettingNumber.serializeM enc s).2 = s) ∧
    (∀ (s : SettingMaxThreads),
      s.getValueM.2 = s ∧ s.toStringM.2 = s ∧ s.toFieldM.2 = s ∧ s.serializeM.2 = s) ∧
    (∀ (u : SettingTimespanUnit) (s : SettingTimespan),
      s.getValueM.2 = s ∧ (s.toStringM u).2 = s ∧ (s.toFieldM u).2 = s ∧
      (s.serializeM u).2 = s) ∧
    (∀ (s : SettingString), s.toStringM.2 = s ∧ s.toFieldM.2 = s ∧ s.serializeM.2 = s) ∧
    (∀ (s : SettingChar),
      s.getValueM.2 = s ∧ s.toStringM.2 = s ∧ s.toFieldM.2 = s ∧ s.serializeM.2 = s) ∧
    (∀ (α : Type) [DecidableEq α] (table : List (α × String)) (name : String)
        (code : ErrorCode) (s : SettingEnum α),
      s.getValueM.2 = s ∧ (SettingEnum.toStringM table name code s).2 = s ∧
      (SettingEnum.serializeM table name code s).2 = s) := by
  refine ⟨fun α d => rfl, fun a => rfl, fun us => rfl, fun d => rfl, fun d => rfl,
    fun α d => rfl, fun α s x => rfl, ?_, ?_, ?_, ?_, ?_, ?_, ?_, ?_, ?_, ?_, ?_, ?_,
    fun a s x => rfl, fun a s => rfl, ?_, ?_, ?_, fun s us => rfl, fun u s x => rfl,
    ?_, ?_, ?_, fun s x => rfl, ?_, ?_, fun s x => rfl, ?_, ?_, ?_, fun α s x => rfl,
    ?_, ?_, fun α fmt toFld enc s => ⟨rfl, rfl, rfl, rfl⟩, fun s => ⟨rfl, rfl, rfl, rfl⟩,
    fun u s => ⟨rfl, rfl, rfl, rfl⟩, fun s => ⟨rfl, rfl, rfl⟩, fun s => ⟨rfl, rfl, rfl, rfl⟩,
    fun α _inst table name code s => ⟨rfl, rfl, rfl⟩⟩
  · intro s x
    exact onOk_setStringVia parseNat s x
  · intro s x
    exact onOk_setStringVia parseInt s x
  · intro s x
    exact onOk_setStringVia parseFloat s x
  · intro s x
    exact onOk_setStringBool s x
  · intro s f
    cases f with
    | str v => exact onOk_setStringVia parseNat s v
    | uint v => simp [SettingNumber.setField, onOk, SettingNumber.set]
    | int v => simp [SettingNumber.setField, onOk, SettingNumber.set]
    | float v => simp [SettingNumber.setField, onOk, SettingNumber.set]
  · intro s f
    cases f with
    | str v => exact onOk_setStringVia parseInt s v
    | uint v => simp [SettingNumber.setField, onOk, SettingNumber.set]
    | int v => simp [SettingNumber.setField, onOk, SettingNumber.set]
    | float v => simp [SettingNumber.setField, onOk, SettingNumber.set]
  · intro s f
    cases f with
    | str v => exact onOk_setStringVia parseFloat s v
    | uint v => simp [SettingNumber.setField, onOk, SettingNumber.set]
    | int v => simp [SettingNumber.setField, onOk, SettingNumber.set]
    | float v => simp [SettingNumber.setField, onOk, SettingNumber.set]
  · intro s f
    cases f with
    | str v => exact onOk_setStringBool s v
    | uint v => simp [SettingNumber.setField, onOk, SettingNumber.set]
    | int v => simp [SettingNumber.setField, onOk, SettingNumber.set]
    | float v => simp [SettingNumber.setField, onOk, SettingNumber.set]
  · intro s buf
    unfold SettingNumber.deserializeU
    cases h : readVarUInt buf with
    | ok p => obtain ⟨x, r⟩ := p; simp [onOk, SettingNumber.set]
    | error e => simp [onOk]
  · intro s buf
    unfold SettingNumber.deserializeI
    cases h : readVarInt buf with
    | ok p => obtain ⟨x, r⟩ := p; simp [onOk, SettingNumber.set]
    | error e => simp [onOk]
  · intro s buf
    unfold SettingNumber.deserializeF
    cases h : readBinary buf with
    | error e => simp [onOk]
    | ok p =>
      obtain ⟨x, r⟩ := p
      have h2 := onOk_setStringVia parseFloat s x
      unfold SettingNumber.setStringF
      cases h3 : SettingNumber.setStringVia parseFloat s x with
      | ok s2 =>
        rw [h3] at h2
        simp only [onOk] at h2
        simp [onOk, h3, h2]
      | error e => simp [onOk, h3]
  · intro s buf
    unfold SettingNumber.deserializeB
    cases h : readVarUInt buf with
    | ok p => obtain ⟨x, r⟩ := p; simp [onOk, SettingNumber.set]
    | error e => simp [onOk]
  · exact fun autoVal s x => maxThreads_setString_changed autoVal s x
  · intro autoVal s f
    cases f with
    | str v => exact maxThreads_setString_changed autoVal s v
    | uint v =>
      simp [SettingMaxThreads.setField, safeGetUInt64, onOk, SettingMaxThreads.set]
    | int v =>
      simp [SettingMaxThreads.setField, safeGetUInt64, onOk]
    | float v =>
      simp [SettingMaxThreads.setField, safeGetUInt64, onOk]
  · intro autoVal s buf
    unfold SettingMaxThreads.deserialize
    cases h : readVarUInt buf with
    | ok p => obtain ⟨x, r⟩ := p; simp [onOk, SettingMaxThreads.set]
    | error e => simp [onOk]
  · intro u s x
    unfold SettingTimespan.setString
    cases parseNat x <;>
      simp [onOk, SettingTimespan.setUInt, SettingTimespan.setTimespan]
  · intro u s f
    cases f with
    | str v =>
      unfold SettingTimespan.setField SettingTimespan.setString
      cases hp : parseNat v <;>
        simp [onOk, hp, SettingTimespan.setUInt, SettingTimespan.setTimespan]
    | uint v =>
      simp [SettingTimespan.setField, safeGetUInt64, onOk, SettingTimespan.setUInt,
        SettingTimespan.setTimespan]
    | int v => simp [SettingTimespan.setField, safeGetUInt64, onOk]
    | float v => simp [SettingTimespan.setField, safeGetUInt64, onOk]
  · intro u s buf
    unfold SettingTimespan.deserialize
    cases h : readVarUInt buf with
    | ok p =>
      obtain ⟨x, r⟩ := p
      simp [onOk, SettingTimespan.setUInt, SettingTimespan.setTimespan]
    | error e => simp [onOk]
  · intro s f
    cases f <;> simp [SettingString.setField, safeGetString, onOk, SettingString.set]
  · intro s buf
    unfold SettingString.deserialize
    cases h : readBinary buf with
    | ok p => obtain ⟨x, r⟩ := p; simp [onOk, SettingString.set]
    | error e => simp [onOk]
  · exact fun s x => charSetString_changed s x
  · intro s f
    cases f with
    | str v => exact charSetString_changed s v
    | uint v => simp [SettingChar.setField, safeGetString, onOk]
    | int v => simp [SettingChar.setField, safeGetString, onOk]
    | float v => simp [SettingChar.setField, safeGetString, onOk]
  · intro s buf
    unfold SettingChar.deserialize
    cases h : readBinary buf with
    | error e => simp [onOk]
    | ok p =>
      obtain ⟨x, r⟩ := p
      have h2 := charSetString_changed s x
      cases h3 : s.setString x with
      | ok s2 =>
        rw [h3] at h2
        simp only [onOk] at h2
        simp [onOk, h3, h2]
      | error e => simp [onOk, h3]
  · intro α table name code s x
    unfold SettingEnum.setString
    cases table.find? (fun p => p.2 == x) <;> simp [onOk, SettingEnum.set]
  · intro α table name code s buf
    unfold SettingEnum.deserialize
    cases h : readBinary buf with
    | error e => simp [onOk]
    | ok p =>
      obtain ⟨x, r⟩ := p
      have h2 : onOk (s.setString table name code x) (fun s2 => s2.changed = true) := by
        unfold SettingEnum.setString
        cases table.find? (fun q => q.2 == x) <;> simp [onOk, SettingEnum.set]
      cases h3 : s.setString table name code x with
      | ok s2 =>
        rw [h3] at h2
        simp only [onOk] at h2
        simp [onOk, h3, h2]
      | error e => simp [onOk, h3]

/-- Witness for the C6 theorem: in the load-balancing table, the keyword of
`RANDOM` parses back to `RANDOM` on a cell currently holding `IN_ORDER`. -/
theorem enum_name_table_roundtrips_witness :
    (LoadBalancing.RANDOM, "random") ∈ LOAD_BALANCING_LIST_OF_NAMES ∧
    (LoadBalancing.IN_ORDER, "in_order") ∈ LOAD_BALANCING_LIST_OF_NAMES ∧
    SettingEnum.setString LOAD_BALANCING_LIST_OF_NAMES "LoadBalancing"
        ErrorCode.UNKNOWN_LOAD_BALANCING ⟨.IN_ORDER, false⟩ "random" = .ok ⟨.RANDOM, true⟩ :=
  ⟨List.mem_cons_self _ _,
   List.mem_cons_of_mem _ (List.mem_cons_of_mem _ (List.mem_cons_self _ _)),
   (enum_name_table_roundtrips.1 (LoadBalancing.RANDOM, "random") (List.mem_cons_self _ _)
      false (LoadBalancing.IN_ORDER, "in_order")
      (List.mem_cons_of_mem _ (List.mem_cons_of_mem _ (List.mem_cons_self _ _)))).2.1⟩
